import Mathlib

/-!
Shallow embedding of the core simulation of `src/src/main.rs` (an agent-based
ecological simulation: sheep and wolves on a discrete grid).  Floating point
quantities (`f32` in the source) are modelled as rationals, `i32` grid
coordinates as `Int`, species ids (`u32`) as `Nat`.  Bevy `Timer`s are
modelled by their remaining time (for `Once` timers) resp. elapsed time (for
the repeating move timer).  The global RNG is modelled as an injected stream
of draws.  Deferred ECS commands (inserting `Dead`, cooldowns, spawning) are
applied at the end of the step that issues them, while queries inside one
step observe the frame-start component values, exactly as in the source.
-/

namespace LivingWorld

/-- Per-species tunable parameters, from `struct SpeciesConfig` in the source. -/
structure SpeciesConfig where
  starting_count : Nat
  adult_seconds : ℚ
  reproduction_chance : ℚ
  reproduction_cooldown_seconds : ℚ
  sight_range : Int
deriving DecidableEq

/-- Simulation-wide configuration, from `struct SimulationConfig` in the source.
The two species entries of the source's `HashMap<u32, SpeciesConfig>` (keys 0
and 1) are the `sheepCfg` and `wolfCfg` fields. -/
structure SimulationConfig where
  map_size : Int
  plant_spawn_chance_per_tick : ℚ
  soil_exhaust_seconds_after_eat : ℚ
  blood_fx_seconds : ℚ
  base_move_seconds : ℚ
  reproduction_move_seconds : ℚ
  overfed_move_multiplier : ℚ
  hunger_starve_threshold : ℚ
  sheep_hunger_burn_adult : ℚ
  sheep_hunger_burn_baby : ℚ
  wolf_hunger_burn_adult : ℚ
  wolf_hunger_burn_baby : ℚ
  eat_skip_if_hunger_below : ℚ
  wolf_berry_stun_ticks : Nat
  wolf_low_health_hunger_threshold : ℚ
  wolf_low_health_weight_fruit : Int
  wolf_low_health_weight_meat : Int
  sheepCfg : SpeciesConfig
  wolfCfg : SpeciesConfig
deriving DecidableEq

/-- Species lookup `SimulationConfig::s`; the source keys the map by the
species id and only ids 0 (sheep) and 1 (wolves) are ever inserted. -/
def SimulationConfig.s (cfg : SimulationConfig) (sid : Nat) : SpeciesConfig :=
  if sid = 0 then cfg.sheepCfg else cfg.wolfCfg

/-- `SimulationConfig::default` from the source (`3.3 * 1.5 = 4.95`,
`1.65 * 1.5 = 2.475`). -/
def defaultConfig : SimulationConfig where
  map_size := 20
  plant_spawn_chance_per_tick := mkRat 1 20
  soil_exhaust_seconds_after_eat := 10
  blood_fx_seconds := 30
  base_move_seconds := mkRat 1 5
  reproduction_move_seconds := mkRat 1 2
  overfed_move_multiplier := mkRat 33 5
  hunger_starve_threshold := 100
  sheep_hunger_burn_adult := mkRat 33 10
  sheep_hunger_burn_baby := mkRat 33 20
  wolf_hunger_burn_adult := mkRat 99 20
  wolf_hunger_burn_baby := mkRat 99 40
  eat_skip_if_hunger_below := 5
  wolf_berry_stun_ticks := 2
  wolf_low_health_hunger_threshold := 70
  wolf_low_health_weight_fruit := 80
  wolf_low_health_weight_meat := 50
  sheepCfg :=
    { starting_count := 12
      adult_seconds := 10
      reproduction_chance := mkRat 1 10
      reproduction_cooldown_seconds := 30
      sight_range := 8 }
  wolfCfg :=
    { starting_count := 4
      adult_seconds := 20
      reproduction_chance := mkRat 1 10
      reproduction_cooldown_seconds := 70
      sight_range := 10 }

/-- A creature entity: the components `GridPosition`, `CreatureStats`,
`CreatureBehavior`, `Age`, `Hunger`, `History`, `MoveTimer` (elapsed time),
and the optional state components `Digesting`, `Overfed`, `BerryStun`,
`ReproductionCooldown` (each modelled by its remaining seconds) plus the
`Dead` flag. -/
structure Creature where
  id : Nat
  x : Int
  y : Int
  species_id : Nat
  sight_range : Int
  scared_of_water : Bool
  altruistic : Bool
  seconds_alive : ℚ
  is_adult : Bool
  hunger : ℚ
  last_x : Int
  last_y : Int
  move_elapsed : ℚ
  digesting : Bool
  overfed : Option ℚ
  berry_stun : Option ℚ
  cooldown : Option ℚ
  dead : Bool
deriving DecidableEq

/-- A plant entity (`Plant` tag + `GridPosition` + possible `Dead` flag). -/
structure Plant where
  id : Nat
  x : Int
  y : Int
  dead : Bool
deriving DecidableEq

/-- An `ExhaustedSoil` marker (also used for the blood FX marker spawned on a
kill); `remaining` is the remaining seconds of its timer. -/
structure Soil where
  x : Int
  y : Int
  remaining : ℚ
deriving DecidableEq

/-- A map tile (`Tile { x, y }` plus the optional `Water` tag component).
Tiles carry no `GridPosition` component in the source. -/
structure Tile where
  x : Int
  y : Int
  water : Bool
deriving DecidableEq

/-- Manhattan distance `(x1 - x2).abs() + (y1 - y2).abs()`. -/
def mdist (x1 y1 x2 y2 : Int) : Int := |x1 - x2| + |y1 - y2|

/-! ## Predation (`predator_hunting_system`, main.rs lines 1480-1513)

For each live wolf (`species_id == 1`), babies skipped, the inner loop scans
the live sheep query and breaks at the first sheep on the wolf's cell: the
wolf's hunger is set to `-5.0`, `Digesting` is inserted on the wolf, `Dead`
on the sheep, and a blood marker (an `ExhaustedSoil` with a 30 second timer)
is spawned at the cell.  `Dead` inserts are deferred commands, so every wolf
scans the frame-start live sheep set. -/

/-- The first live sheep the wolf's inner scan finds on its own cell
(`None` when the wolf is not an adult wolf, mirroring the two `continue`s). -/
def killedBy (w : Creature) (live : List Creature) : Option Creature :=
  if w.species_id = 1 ∧ w.is_adult then
    live.find? (fun s => s.species_id == 0 && s.x == w.x && s.y == w.y)
  else none

/-- All (wolf, victim) pairs of one run of the system. -/
def killEvents (live : List Creature) : List (Creature × Creature) :=
  live.filterMap (fun w => (killedBy w live).map (fun s => (w, s)))

/-- One run of `predator_hunting_system`: returns the updated creature list
and the blood markers spawned. -/
def predator_hunting_system (cs : List Creature) : List Creature × List Soil :=
  let live := cs.filter (fun c => !c.dead)
  let killedIds := (killEvents live).map (fun e => e.2.id)
  (cs.map (fun c =>
      if c.dead then c
      else if (killedBy c live).isSome then { c with hunger := -5, digesting := true }
      else if killedIds.contains c.id then { c with dead := true }
      else c),
   (killEvents live).map (fun e => { x := e.1.x, y := e.1.y, remaining := 30 }))

theorem find?_eq_some_iff_exists {p : Creature → Bool} {l : List Creature} :
    (l.find? p).isSome ↔ ∃ c ∈ l, p c = true := by
  constructor
  · intro h
    rcases Option.isSome_iff_exists.mp h with ⟨c, hc⟩
    exact ⟨c, List.mem_of_find?_eq_some hc, List.find?_some hc⟩
  · intro ⟨c, hc, hp⟩
    rcases List.find?_isSome.mpr ⟨c, hc, hp⟩ with h
    exact h

/-- Helper: the victim returned by `killedBy` is a live sheep on the wolf's cell. -/
theorem killedBy_spec {w : Creature} {live : List Creature} {s : Creature}
    (h : killedBy w live = some s) :
    s ∈ live ∧ s.species_id = 0 ∧ s.x = w.x ∧ s.y = w.y := by
  unfold killedBy at h
  split at h
  · refine ⟨List.mem_of_find?_eq_some h, ?_⟩
    have := List.find?_some h
    simp only [Bool.and_eq_true, beq_iff_eq] at this
    exact ⟨this.1.1, this.1.2, this.2⟩
  · cases h

/-- A template creature used to build concrete test states (witnesses and
counterexamples) compactly. -/
def baseCreature : Creature where
  id := 0
  x := 0
  y := 0
  species_id := 0
  sight_range := 8
  scared_of_water := true
  altruistic := false
  seconds_alive := 30
  is_adult := true
  hunger := 0
  last_x := 9
  last_y := 9
  move_elapsed := 0
  digesting := false
  overfed := none
  berry_stun := none
  cooldown := none
  dead := false

/-- Each element of the live list contributes at most one kill event
(the inner loop of `predator_hunting_system` breaks after the first match). -/
theorem killEvents_count_le (live : List Creature) (w : Creature) :
    ∀ l : List Creature,
      ((l.filterMap (fun v => (killedBy v live).map (fun s => (v, s)))).filter
          (fun e => e.1 == w)).length ≤ l.count w := by
  intro l
  induction l with
  | nil => simp
  | cons x xs ih =>
    cases hkb : killedBy x live with
    | none =>
      rw [List.filterMap_cons, hkb, List.count_cons]
      simp only [Option.map_none']
      refine le_trans ih ?_
      split <;> omega
    | some s =>
      rw [List.filterMap_cons, hkb, List.count_cons]
      simp only [Option.map_some']
      rw [List.filter_cons]
      by_cases hxw : x = w
      · subst hxw
        simp only [beq_self_eq_true, if_true, List.length_cons]
        have h2 : (if (x == x) = true then 1 else 0) = 1 := by simp
        omega
      · have hbeq : ((x, s).1 == w) = false := by
          simp only [beq_eq_false_iff_ne, ne_eq]
          exact hxw
        rw [hbeq]
        simp only [Bool.false_eq_true, if_false]
        have h2 : (if (x == w) = true then 1 else 0) = 0 := by simp [hxw]
        omega

/-- Core of the predation step: a live adult wolf with a live sheep on its
cell gorges (hunger −5, `Digesting`) and some live sheep on that cell is
flagged dead. -/
theorem hunt_hits (cs : List Creature) (w : Creature)
    (hw : w ∈ cs) (hlive : w.dead = false) (hsp : w.species_id = 1)
    (hadult : w.is_adult = true)
    (hs : ∃ s ∈ cs, s.dead = false ∧ s.species_id = 0 ∧ s.x = w.x ∧ s.y = w.y) :
    ((∃ w2 ∈ (predator_hunting_system cs).1,
        w2.id = w.id ∧ w2.hunger = -5 ∧ w2.digesting = true) ∧
      (∃ s2 ∈ (predator_hunting_system cs).1,
        s2.species_id = 0 ∧ s2.x = w.x ∧ s2.y = w.y ∧ s2.dead = true)) ∧
    (killedBy w (cs.filter (fun c => !c.dead))).isSome = true := by
  rcases hs with ⟨s, hsmem, hsdead, hssp, hsx, hsy⟩
  · have hwl : w ∈ cs.filter (fun c => !c.dead) := by
      rw [List.mem_filter]
      exact ⟨hw, by rw [hlive]; rfl⟩
    have hsl : s ∈ cs.filter (fun c => !c.dead) := by
      rw [List.mem_filter]
      exact ⟨hsmem, by rw [hsdead]; rfl⟩
    have hkb : (killedBy w (cs.filter (fun c => !c.dead))).isSome := by
      unfold killedBy
      rw [if_pos ⟨hsp, hadult⟩]
      exact List.find?_isSome.mpr ⟨s, hsl, by
        simp only [Bool.and_eq_true, beq_iff_eq]
        exact ⟨⟨hssp, hsx⟩, hsy⟩⟩
    rcases Option.isSome_iff_exists.mp hkb with ⟨s0, hs0⟩
    have hs0spec := killedBy_spec hs0
    refine ⟨⟨?_, ?_⟩, hkb⟩
    · -- the wolf's image gorges
      refine ⟨_, List.mem_map_of_mem _ hw, ?_⟩
      rw [if_neg (by rw [hlive]; exact Bool.false_ne_true),
        if_pos (by rw [hs0]; rfl)]
      exact ⟨rfl, rfl, rfl⟩
    · -- the victim's image is flagged dead
      have hs0cs : s0 ∈ cs := List.mem_of_mem_filter hs0spec.1
      have hs0dead : s0.dead = false := by
        have := (List.mem_filter.mp hs0spec.1).2
        simpa using this
      have hev : (w, s0) ∈ killEvents (cs.filter (fun c => !c.dead)) := by
        unfold killEvents
        exact List.mem_filterMap.mpr ⟨w, hwl, by rw [hs0]; rfl⟩
      have hid : ((killEvents (cs.filter (fun c => !c.dead))).map
          (fun e => e.2.id)).contains s0.id = true := by
        rw [List.contains_eq_any_beq]
        refine List.any_eq_true.mpr ⟨s0.id, List.mem_map_of_mem _ hev, by simp⟩
      refine ⟨_, List.mem_map_of_mem _ hs0cs, ?_⟩
      rw [if_neg (by rw [hs0dead]; exact Bool.false_ne_true)]
      have hnogorge : (killedBy s0 (cs.filter (fun c => !c.dead))).isSome = false := by
        unfold killedBy
        rw [if_neg (by rw [hs0spec.2.1]; intro h; exact absurd h.1 (by omega))]
        rfl
      rw [hnogorge]
      simp only [Bool.false_eq_true, if_false]
      rw [if_pos hid]
      exact ⟨hs0spec.2.1, hs0spec.2.2.1, hs0spec.2.2.2, rfl⟩

/-- C1: On every run of the predation step, a live adult wolf sharing a cell
with a live sheep ends with hunger −5 and the `Digesting` state, and some
live sheep on that cell is flagged dead; each wolf element of the live list
produces at most one kill event (the inner loop breaks after the first
match); and a baby wolf never produces a kill. -/
theorem claim_C1 (cs : List Creature) (w : Creature)
    (hw : w ∈ cs) (hlive : w.dead = false) (hsp : w.species_id = 1) :
    (w.is_adult = true →
      (∃ s ∈ cs, s.dead = false ∧ s.species_id = 0 ∧ s.x = w.x ∧ s.y = w.y) →
      (∃ w2 ∈ (predator_hunting_system cs).1,
          w2.id = w.id ∧ w2.hunger = -5 ∧ w2.digesting = true) ∧
      (∃ s2 ∈ (predator_hunting_system cs).1,
          s2.species_id = 0 ∧ s2.x = w.x ∧ s2.y = w.y ∧ s2.dead = true)) ∧
    (((killEvents (cs.filter (fun c => !c.dead))).filter
        (fun e => e.1 == w)).length ≤ (cs.filter (fun c => !c.dead)).count w) ∧
    (w.is_adult = false → killedBy w (cs.filter (fun c => !c.dead)) = none) := by
  refine ⟨?_, killEvents_count_le _ w _, ?_⟩
  · intro hadult hs
    exact (hunt_hits cs w hw hlive hsp hadult hs).1
  · intro hbaby
    unfold killedBy
    rw [if_neg (by rw [hbaby]; intro h; exact absurd h.2 Bool.false_ne_true)]

/-- Concrete adult wolf and colocated sheep for the C1 witness. -/
def wolfC1 : Creature :=
  { baseCreature with id := 10, species_id := 1, sight_range := 10, x := 3, y := 4 }

def sheepC1 : Creature :=
  { baseCreature with id := 11, species_id := 0, x := 3, y := 4 }

theorem claim_C1_witness :
    (∃ w2 ∈ (predator_hunting_system [wolfC1, sheepC1]).1,
        w2.id = wolfC1.id ∧ w2.hunger = -5 ∧ w2.digesting = true) ∧
    (∃ s2 ∈ (predator_hunting_system [wolfC1, sheepC1]).1,
        s2.species_id = 0 ∧ s2.x = wolfC1.x ∧ s2.y = wolfC1.y ∧ s2.dead = true) :=
  (claim_C1 [wolfC1, sheepC1] wolfC1 (by decide) (by decide) (by decide)).1
    (by decide) ⟨sheepC1, by decide, by decide, by decide, by decide, by decide⟩

/-! ## Target selection and movement (`move_creatures`, main.rs lines 667-925)

The system snapshots all live creatures (`CreatureSnapshot`), all plant
positions (query without a `Dead` filter) and the positions of entities
carrying both `GridPosition` and `Water`, then per creature: handles the
berry stun, skips digesting creatures, ticks the repeating move timer with a
state-dependent duration, selects a target and scores the four orthogonal
moves. -/

/-- `struct CreatureSnapshot` of `move_creatures`. -/
structure CreatureSnapshot where
  entity : Nat
  x : Int
  y : Int
  species : Nat
  is_adult : Bool
deriving DecidableEq

/-- The `creature_targets` snapshot (query p0: live creatures only). -/
def mkSnapshot (cs : List Creature) : List CreatureSnapshot :=
  (cs.filter (fun c => !c.dead)).map
    (fun c => ⟨c.id, c.x, c.y, c.species_id, c.is_adult⟩)

/-- The common shape of the four nearest-target loops: running accumulator
`(best, best_dist)`, accept a candidate when it satisfies `p` and is strictly
closer than the best so far. -/
def nearestGo (p : α → Bool) (d : α → Int) :
    List α → Option α × Int → Option α × Int
  | [], acc => acc
  | x :: xs, acc =>
    nearestGo p d xs (if p x = true ∧ d x < acc.2 then (some x, d x) else acc)

/-- Sheep mate loop (lines 776-788): same species 0, not itself,
`1 < dist < sight`; note that the source does **not** test the candidate's
adulthood here (unlike the wolf mate loop). -/
def sheepMateScan (me : Creature) (snap : List CreatureSnapshot) :
    Option CreatureSnapshot :=
  (nearestGo
    (fun o => !(o.entity == me.id) && (o.species == 0) &&
      decide (1 < mdist me.x me.y o.x o.y) &&
      decide (mdist me.x me.y o.x o.y < me.sight_range))
    (fun o => mdist me.x me.y o.x o.y) snap (none, 9999)).1

/-- Plant target loop (sheep food, lines 790-801, and wolf fruit,
lines 864-873): `0 < dist < sight`. -/
def plantScan (me : Creature) (plants : List (Int × Int)) : Option (Int × Int) :=
  (nearestGo
    (fun q => decide (0 < mdist me.x me.y q.1 q.2) &&
      decide (mdist me.x me.y q.1 q.2 < me.sight_range))
    (fun q => mdist me.x me.y q.1 q.2) plants (none, 9999)).1

/-- Wolf mate loop (lines 804-819): same species 1, adult candidates only,
`1 < dist < sight`. -/
def wolfMateScan (me : Creature) (snap : List CreatureSnapshot) :
    Option CreatureSnapshot :=
  (nearestGo
    (fun o => !(o.entity == me.id) && (o.species == 1) && o.is_adult &&
      decide (1 < mdist me.x me.y o.x o.y) &&
      decide (mdist me.x me.y o.x o.y < me.sight_range))
    (fun o => mdist me.x me.y o.x o.y) snap (none, 9999)).1

/-- `best_prey.map(|(_,_,d)| dist < d).unwrap_or(true)`. -/
def closerThan (acc : Option (CreatureSnapshot × Int)) (d : Int) : Bool :=
  match acc with
  | none => true
  | some q => decide (d < q.2)

/-- The combined `best_prey` / `best_predator` scan (lines 821-842).
`tt` is the target type selected so far (used by the
`!(target_type == 2 && hunger_level <= 50.0)` test). -/
def preyPredScanGo (me : Creature) (tt : Int) :
    List CreatureSnapshot →
    Option (CreatureSnapshot × Int) × Option (CreatureSnapshot × Int) →
    Option (CreatureSnapshot × Int) × Option (CreatureSnapshot × Int)
  | [], acc => acc
  | o :: os, acc =>
    preyPredScanGo me tt os
      (if o.entity == me.id then acc
       else if me.sight_range ≤ mdist me.x me.y o.x o.y then acc
       else if me.species_id = 1 ∧ o.species = 0 then
         (if me.is_adult = true ∧ ¬(tt = 2 ∧ me.hunger ≤ 50) ∧
             closerThan acc.1 (mdist me.x me.y o.x o.y) = true
          then (some (o, mdist me.x me.y o.x o.y), acc.2) else acc)
       else if me.species_id = 0 ∧ o.species = 1 then
         (if o.is_adult = true ∧ closerThan acc.2 (mdist me.x me.y o.x o.y) = true
          then (acc.1, some (o, mdist me.x me.y o.x o.y)) else acc)
       else acc)

/-- The selected target: `target_pos`, `target_type`
(0 = none, 1 = fruit, 2 = mate, 3 = prey, 4 = predator) and `target_weight`. -/
structure Sel where
  target : Option (Int × Int)
  ttype : Int
  weight : Int
deriving DecidableEq

/-- Sheep mate stage (lines 775-788): runs when the sheep is full
(hunger ≤ 10) and can breed (adult, no cooldown, not overfed). -/
def selSheepMate (me : Creature) (snap : List CreatureSnapshot) : Sel :=
  if me.species_id = 0 then
    if me.hunger ≤ 10 ∧ (me.is_adult = true ∧ me.cooldown = none ∧ me.overfed = none) then
      match sheepMateScan me snap with
      | some o => ⟨some (o.x, o.y), 2, 20⟩
      | none => ⟨none, 0, 20⟩
    else ⟨none, 0, 20⟩
  else ⟨none, 0, 20⟩

/-- Sheep food stage (lines 790-801): runs when no target was selected yet
and hunger > 30. -/
def selSheepFood (me : Creature) (plants : List (Int × Int)) (s1 : Sel) : Sel :=
  if me.species_id = 0 ∧ s1.target = none ∧ 30 < me.hunger then
    match plantScan me plants with
    | some q => ⟨some q, 1, 20⟩
    | none => s1
  else s1

/-- Wolf mate stage (lines 804-819): runs when the wolf can breed and
hunger ≤ 50; weight 60. -/
def selWolfMate (me : Creature) (snap : List CreatureSnapshot) (s2 : Sel) : Sel :=
  if me.species_id = 1 ∧
      (me.is_adult = true ∧ me.cooldown = none ∧ me.overfed = none) ∧
      me.hunger ≤ 50 then
    match wolfMateScan me snap with
    | some o => ⟨some (o.x, o.y), 2, 60⟩
    | none => s2
  else s2

/-- Flee override (lines 844-848): a found `best_predator` always wins. -/
def selFlee (bpd : Option (CreatureSnapshot × Int)) (s3 : Sel) : Sel :=
  match bpd with
  | some q => ⟨some (q.1.x, q.1.y), 4, 20⟩
  | none => s3

/-- Prey assignment (lines 850-856): a found `best_prey` is taken unless a
mate target is held. -/
def selPrey (bp : Option (CreatureSnapshot × Int)) (s4 : Sel) : Sel :=
  if s4.ttype ≠ 2 then
    match bp with
    | some q => ⟨some (q.1.x, q.1.y), 3, 20⟩
    | none => s4
  else s4

/-- First half of the wolf fruit stage (lines 860-862): a prey target's
weight is raised to 50 at hunger ≥ 70. -/
def selWolfFruitBump (me : Creature) (s5 : Sel) : Sel :=
  if 70 ≤ me.hunger ∧ s5.ttype = 3 then { s5 with weight := 50 } else s5

/-- Wolf fruit stage (lines 858-875): after the weight bump, target a plant
(weight 80 at hunger ≥ 70, else 20) only when no mate and no prey target is
held and the fruit gate (baby, or hunger ≤ 30, or hunger ≥ 70) allows it. -/
def selWolfFruit (me : Creature) (plants : List (Int × Int)) (s5 : Sel) : Sel :=
  if me.species_id = 1 then
    if (me.is_adult = false ∨ me.hunger ≤ 30 ∨ 70 ≤ me.hunger) ∧
        (selWolfFruitBump me s5).ttype ≠ 2 ∧ (selWolfFruitBump me s5).ttype ≠ 3 then
      match plantScan me plants with
      | some q => ⟨some q, 1, if 70 ≤ me.hunger then 80 else 20⟩
      | none => selWolfFruitBump me s5
    else selWolfFruitBump me s5
  else s5

/-- The full target selection of `move_creatures` (lines 763-875), as the
composition of the stages in source order. -/
def selectTarget (me : Creature) (snap : List CreatureSnapshot)
    (plants : List (Int × Int)) : Sel :=
  let s3 := selWolfMate me snap (selSheepFood me plants (selSheepMate me snap))
  let bp := preyPredScanGo me s3.ttype snap (none, none)
  selWolfFruit me plants (selPrey bp.1 (selFlee bp.2 s3))

/-- The four candidate moves, in the source's scan order. -/
def moveOffsets : List (Int × Int) := [(0, 1), (0, -1), (-1, 0), (1, 0)]

/-- Candidate score (lines 891-911): `rand::random::<i32>() % 20` is the
i32 truncating remainder `Int.tmod r 20`, then the water penalty, the
anti-oscillation penalty, and the directional term. -/
def scoreMove (me : Creature) (water : List (Int × Int)) (sel : Sel) (r : Int)
    (nx ny : Int) : Int :=
  let s0 := Int.tmod r 20
  let s1 := if me.scared_of_water = true ∧ (nx, ny) ∈ water then s0 - 1000 else s0
  let s2 := if nx = me.last_x ∧ ny = me.last_y then s1 - 30 else s1
  match sel.target with
  | none => s2
  | some (tx, ty) =>
    let dist_now := mdist me.x me.y tx ty
    let dist_after := mdist nx ny tx ty
    let delta := dist_after - dist_now
    if sel.ttype = 1 ∨ sel.ttype = 2 ∨ sel.ttype = 3 then s2 - delta * sel.weight
    else if sel.ttype = 4 then s2 + delta * sel.weight
    else s2

/-- Bounds test of a candidate destination (line 887). -/
def inBounds (cfg : SimulationConfig) (nx ny : Int) : Bool :=
  decide (-cfg.map_size ≤ nx) && decide (nx < cfg.map_size) &&
  decide (-cfg.map_size ≤ ny) && decide (ny < cfg.map_size)

/-- The move-evaluation loop (lines 878-917): accumulator
`(best_move, best_score, rng index)`; one random draw is consumed per
in-bounds candidate; a candidate replaces the best only with a strictly
greater score. -/
def evalGo (cfg : SimulationConfig) (me : Creature) (water : List (Int × Int))
    (sel : Sel) (rng : Nat → Int) :
    List (Int × Int) → (Int × Int) × Int × Nat → (Int × Int) × Int × Nat
  | [], acc => acc
  | m :: ms, acc =>
    if inBounds cfg (me.x + m.1) (me.y + m.2) = false then
      evalGo cfg me water sel rng ms acc
    else if acc.2.1 < scoreMove me water sel (rng acc.2.2) (me.x + m.1) (me.y + m.2) then
      evalGo cfg me water sel rng ms
        (m, scoreMove me water sel (rng acc.2.2) (me.x + m.1) (me.y + m.2), acc.2.2 + 1)
    else
      evalGo cfg me water sel rng ms (acc.1, acc.2.1, acc.2.2 + 1)

/-- Move evaluation over the four offsets, starting from
`best_move = (0,0)`, `best_score = -9999`. -/
def evalMoves (cfg : SimulationConfig) (me : Creature) (water : List (Int × Int))
    (sel : Sel) (rng : Nat → Int) (ridx : Nat) : (Int × Int) × Int × Nat :=
  evalGo cfg me water sel rng moveOffsets ((0, 0), -9999, ridx)

/-- `a - b * (a / b).floor()`: the wrap of a repeating bevy `Timer`.  The
floor of `a / b` is computed as the floor division of the cross-multiplied
numerators, which agrees with `(a / b).floor()` whenever `b > 0` (every
move-timer duration of the program is positive).  Written this way the
function evaluates by kernel reduction (rational division does not). -/
def ratMod (a b : ℚ) : ℚ :=
  a - b * (Int.fdiv (a.num * b.den) (b.num * a.den) : ℤ)

/-- Body of the per-creature movement logic after the berry-stun handling:
digesting creatures do not move; otherwise the repeating move timer is ticked
with the state-dependent duration and, when it fires, a target is selected,
the four moves are scored, the best is applied, and the history cell is set
to the pre-move position. -/
def moveCreatureBody (cfg : SimulationConfig) (dt : ℚ)
    (snap : List CreatureSnapshot) (plants water : List (Int × Int))
    (rng : Nat → Int) (c : Creature) (ridx : Nat) : Creature × Nat :=
  if c.digesting then (c, ridx)
  else
    let move_seconds :=
      if c.overfed.isSome then cfg.base_move_seconds * cfg.overfed_move_multiplier
      else if c.cooldown.isSome then cfg.reproduction_move_seconds
      else cfg.base_move_seconds
    let e := c.move_elapsed + dt
    if e < move_seconds then ({ c with move_elapsed := e }, ridx)
    else
      let c2 := { c with move_elapsed := ratMod e move_seconds }
      let sel := selectTarget c2 snap plants
      let ev := evalMoves cfg c2 water sel rng ridx
      ({ c2 with x := c2.x + ev.1.1, y := c2.y + ev.1.2,
                 last_x := c.x, last_y := c.y }, ev.2.2)

/-- Per-creature movement (one iteration of the `param_set.p1()` loop):
a berry-stunned creature ticks its stun timer and moves only if the stun
completes this tick (in which case the `BerryStun` component is removed and
the normal logic runs). -/
def moveCreature (cfg : SimulationConfig) (dt : ℚ)
    (snap : List CreatureSnapshot) (plants water : List (Int × Int))
    (rng : Nat → Int) (c : Creature) (ridx : Nat) : Creature × Nat :=
  if c.dead then (c, ridx)
  else
    match c.berry_stun with
    | some r =>
      if dt < r then ({ c with berry_stun := some (r - dt) }, ridx)
      else moveCreatureBody cfg dt snap plants water rng
        { c with berry_stun := none } ridx
    | none => moveCreatureBody cfg dt snap plants water rng c ridx

/-- Sequential loop of `move_creatures` threading the RNG index. -/
def moveGo (cfg : SimulationConfig) (dt : ℚ) (snap : List CreatureSnapshot)
    (plants water : List (Int × Int)) (rng : Nat → Int) :
    List Creature → Nat → List Creature
  | [], _ => []
  | c :: cs, ridx =>
    let p := moveCreature cfg dt snap plants water rng c ridx
    p.1 :: moveGo cfg dt snap plants water rng cs p.2

/-- One run of the `move_creatures` system.  `plants` are the positions of
all `Plant` entities (the query has no `Dead` filter), `water` the positions
of entities carrying both `GridPosition` and `Water`. -/
def move_creatures (cfg : SimulationConfig) (dt : ℚ) (rng : Nat → Int)
    (cs : List Creature) (plants water : List (Int × Int)) : List Creature :=
  moveGo cfg dt (mkSnapshot cs) plants water rng cs 0

/-! ## Eating (`creature_eating`, main.rs lines 1122-1196)

Outer loop over the live plants, inner loop over the live creatures, breaking
at the first eligible eater: digesting creatures skip, position must match,
wolves only eat under the fruit gate, hunger below
`eat_skip_if_hunger_below` skips, altruistic sheep abstain when healthy and a
same-species creature is in sight.  On an eat the creature's hunger is set to
`0.0` immediately (visible to later plants of the same run), the plant is
flagged dead, a soil marker is spawned, and a wolf receives a berry stun of
`base_move_seconds * wolf_berry_stun_ticks` seconds. -/

/-- `wolf_can_eat_plant` (line 1143): baby, or hunger ≤ 30, or hunger ≥ 70. -/
def wolf_can_eat_plant (c : Creature) : Bool :=
  !c.is_adult || decide (c.hunger ≤ 30) || decide (70 ≤ c.hunger)

/-- The altruism abstention test for sheep (lines 1156-1165): altruistic,
hunger < 20, and some other same-species live creature within sight range. -/
def altruismBlocked (all : List Creature) (c : Creature) : Bool :=
  c.altruistic && decide (c.hunger < 20) &&
  all.any (fun o => !(o.id == c.id) && (o.species_id == c.species_id) &&
    decide (mdist c.x c.y o.x o.y ≤ c.sight_range))

/-- All `continue` filters of the inner creature loop, in source order. -/
def eligibleEater (cfg : SimulationConfig) (all : List Creature) (p : Plant)
    (c : Creature) : Bool :=
  !c.dead && !c.digesting && (c.x == p.x) && (c.y == p.y) &&
  !((c.species_id == 1) && !wolf_can_eat_plant c) &&
  !(decide (c.hunger < cfg.eat_skip_if_hunger_below)) &&
  !((c.species_id == 0) && altruismBlocked all c)

/-- First index (from `i`) whose creature satisfies `pred`. -/
def findEaterGo (pred : Creature → Bool) : List Creature → Nat → Option Nat
  | [], _ => none
  | c :: cs, i => if pred c = true then some i else findEaterGo pred cs (i + 1)

/-- Index of the first eligible eater of plant `p` (the loop breaks there). -/
def findEater (cfg : SimulationConfig) (all : List Creature) (p : Plant)
    (cs : List Creature) : Option Nat :=
  findEaterGo (eligibleEater cfg all p) cs 0

/-- Effect of an eat on the eater: hunger reset to `0.0` and, for a wolf,
a berry stun of `base_move_seconds * wolf_berry_stun_ticks` seconds. -/
def applyEat (cfg : SimulationConfig) (cs : List Creature) (i : Nat) :
    List Creature :=
  match cs[i]? with
  | none => cs
  | some c =>
    cs.set i
      { c with
        hunger := 0
        berry_stun :=
          if c.species_id = 1 then
            some (cfg.base_move_seconds * (cfg.wolf_berry_stun_ticks : ℚ))
          else c.berry_stun }

/-- Outer plant loop.  Returns the updated plants and creatures, the spawned
soil markers, and (as an observation transcript) the indices of the creatures
that ate. -/
def creature_eating_go (cfg : SimulationConfig) (all : List Creature) :
    List Plant → List Creature →
    List Plant × List Creature × List Soil × List Nat
  | [], cs => ([], cs, [], [])
  | p :: ps, cs =>
    if p.dead then
      let r := creature_eating_go cfg all ps cs
      (p :: r.1, r.2.1, r.2.2.1, r.2.2.2)
    else
      match findEater cfg all p cs with
      | none =>
        let r := creature_eating_go cfg all ps cs
        (p :: r.1, r.2.1, r.2.2.1, r.2.2.2)
      | some i =>
        let r := creature_eating_go cfg all ps (applyEat cfg cs i)
        ({ p with dead := true } :: r.1, r.2.1,
         { x := p.x, y := p.y,
           remaining := cfg.soil_exhaust_seconds_after_eat } :: r.2.2.1,
         i :: r.2.2.2)

/-- One run of the `creature_eating` system.  `all` is the
`q_all_creatures` snapshot used by the altruism test (live creatures at
frame start; creature positions and deaths do not change inside this
system). -/
def creature_eating (cfg : SimulationConfig) (plants : List Plant)
    (cs : List Creature) : List Plant × List Creature × List Soil × List Nat :=
  creature_eating_go cfg (cs.filter (fun c => !c.dead)) plants cs

/-! ## Reproduction (`creature_reproduction`, main.rs lines 1200-1255)

`iter_combinations` visits every unordered pair of live creatures once, in
query order.  All filters read frame-start components (the query is
immutable; cooldown inserts and baby spawns are deferred commands applied
after the system). -/

/-- The pair filters, in source order: both adult, neither in cooldown,
neither digesting nor overfed, same species, Manhattan distance ≤ 1. -/
def eligiblePair (a b : Creature) : Bool :=
  a.is_adult && b.is_adult && a.cooldown.isNone && b.cooldown.isNone &&
  !a.digesting && a.overfed.isNone && !b.digesting && b.overfed.isNone &&
  (a.species_id == b.species_id) && decide (mdist a.x a.y b.x b.y ≤ 1)

/-- Ordered combinations (`iter_combinations`): every pair (x, y) with x
before y in the list. -/
def combPairs : List α → List (α × α)
  | [] => []
  | x :: xs => xs.map (fun y => (x, y)) ++ combPairs xs

/-- A successful conception: the two parents and the RNG draw that was
compared against the species' `reproduction_chance`. -/
structure BirthEvent where
  a : Creature
  b : Creature
  draw : ℚ
deriving DecidableEq

/-- Pair loop: the RNG is drawn only for pairs that pass all filters
(the draw sits after the `continue`s in the source). -/
def reproEventsGo (cfg : SimulationConfig) (rng : Nat → ℚ) :
    List (Creature × Creature) → Nat → List BirthEvent
  | [], _ => []
  | q :: ps, k =>
    if eligiblePair q.1 q.2 = true then
      if rng k < (cfg.s q.1.species_id).reproduction_chance then
        ⟨q.1, q.2, rng k⟩ :: reproEventsGo cfg rng ps (k + 1)
      else reproEventsGo cfg rng ps (k + 1)
    else reproEventsGo cfg rng ps k

/-- All birth events of one run of the system. -/
def reproEvents (cfg : SimulationConfig) (cs : List Creature) (rng : Nat → ℚ) :
    List BirthEvent :=
  reproEventsGo cfg rng (combPairs (cs.filter (fun c => !c.dead))) 0

/-- The spawned baby: parent A's cell and behavior traits, the species'
sight range from the catalog, age 0, not adult, hunger 0, fresh history. -/
def mkBaby (cfg : SimulationConfig) (a : Creature) (nid : Nat) : Creature where
  id := nid
  x := a.x
  y := a.y
  species_id := a.species_id
  sight_range := (cfg.s a.species_id).sight_range
  scared_of_water := a.scared_of_water
  altruistic := a.altruistic
  seconds_alive := 0
  is_adult := false
  hunger := 0
  last_x := a.x
  last_y := a.y
  move_elapsed := 0
  digesting := false
  overfed := none
  berry_stun := none
  cooldown := none
  dead := false

/-- The source's `SpeciesCounters` (`born`, `total_ever`). -/
structure SpeciesCounters where
  born : Nat
  total_ever : Nat
deriving DecidableEq

/-- `PopulationStats`: the source's HashMap only ever holds keys 0 and 1. -/
structure PopulationStats where
  sheep : SpeciesCounters
  wolves : SpeciesCounters
deriving DecidableEq

/-- `pop.species.entry(sid).or_default(); born += 1; total_ever += 1`. -/
def bumpStats (pop : PopulationStats) (sid : Nat) : PopulationStats :=
  if sid = 0 then
    { pop with sheep := ⟨pop.sheep.born + 1, pop.sheep.total_ever + 1⟩ }
  else
    { pop with wolves := ⟨pop.wolves.born + 1, pop.wolves.total_ever + 1⟩ }

/-- One run of the `creature_reproduction` system: cooldowns are applied to
every parent of some event, the babies are appended (deferred spawns), and
the counters are bumped once per event. -/
def creature_reproduction (cfg : SimulationConfig) (cs : List Creature)
    (rng : Nat → ℚ) (freshId : Nat) (pop : PopulationStats) :
    List Creature × PopulationStats :=
  let evs := reproEvents cfg cs rng
  let parentIds := evs.foldr (fun e acc => e.a.id :: e.b.id :: acc) []
  (cs.map (fun c =>
      if parentIds.contains c.id then
        { c with cooldown := some (cfg.s c.species_id).reproduction_cooldown_seconds }
      else c)
    ++ evs.enum.map (fun q => mkBaby cfg q.2.a (freshId + q.1)),
   evs.foldl (fun pp e => bumpStats pp e.a.species_id) pop)

/-! ## State update (`creature_state_update`, main.rs lines 1020-1118)

Aging and adulthood, the hunger burn, the digesting → overfed transition,
the overfed and cooldown timers, and the starvation check (a literal
`100.0` in the source). -/

/-- Burn per species and age (lines 1051-1057); the wildcard arm of the
source match is `3.0`. -/
def burnOf (cfg : SimulationConfig) (sid : Nat) (adult : Bool) : ℚ :=
  match sid, adult with
  | 0, true => cfg.sheep_hunger_burn_adult
  | 0, false => cfg.sheep_hunger_burn_baby
  | 1, true => cfg.wolf_hunger_burn_adult
  | 1, false => cfg.wolf_hunger_burn_baby
  | _, _ => 3

/-- Aging and the adulthood promotion (lines 1040-1048). -/
def agePhase (cfg : SimulationConfig) (dt : ℚ) (c : Creature) : Creature :=
  if c.is_adult = false ∧ (cfg.s c.species_id).adult_seconds < c.seconds_alive + dt
  then { c with seconds_alive := c.seconds_alive + dt, is_adult := true }
  else { c with seconds_alive := c.seconds_alive + dt }

/-- The hunger burn (lines 1051-1059), read after the adulthood update. -/
def burnPhase (cfg : SimulationConfig) (dt : ℚ) (c : Creature) : Creature :=
  { c with hunger := c.hunger + burnOf cfg c.species_id c.is_adult * dt }

/-- The digesting → overfed transition and the overfed timer (lines
1061-1090): a digesting creature whose hunger has climbed back to ≥ 0 leaves
`Digesting` and becomes `Overfed` for 5 seconds; otherwise the overfed timer
ticks down. -/
def digestPhase (dt : ℚ) (c : Creature) : Creature :=
  if c.digesting then
    (if 0 ≤ c.hunger then { c with digesting := false, overfed := some 5 } else c)
  else
    match c.overfed with
    | some r => if r - dt ≤ 0 then { c with overfed := none }
                else { c with overfed := some (r - dt) }
    | none => c

/-- The reproduction-cooldown timer (lines 1092-1104). -/
def cooldownPhase (dt : ℚ) (c : Creature) : Creature :=
  match c.cooldown with
  | some r => if r - dt ≤ 0 then { c with cooldown := none }
              else { c with cooldown := some (r - dt) }
  | none => c

/-- The starvation check (lines 1106-1116, a literal `100.0`). -/
def starvePhase (c : Creature) : Creature :=
  if 100 ≤ c.hunger then { c with dead := true } else c

/-- Per-creature body of `creature_state_update`, in source order. -/
def updateCreature (cfg : SimulationConfig) (dt : ℚ) (c : Creature) : Creature :=
  if c.dead then c
  else starvePhase (cooldownPhase dt (digestPhase dt (burnPhase cfg dt (agePhase cfg dt c))))

/-- One run of the `creature_state_update` system. -/
def creature_state_update (cfg : SimulationConfig) (dt : ℚ)
    (cs : List Creature) : List Creature :=
  cs.map (updateCreature cfg dt)

/-! ## Drowning, environment, reaping -/

/-- `handle_drowning` (lines 950-964): every live creature on a water tile
is flagged dead.  The system reads only `GridPosition`; the
`CreatureBehavior` component (and hence `scared_of_water`) is not part of
its queries. -/
def handle_drowning (cs : List Creature) (tiles : List Tile) : List Creature :=
  cs.map (fun c =>
    if c.dead then c
    else if tiles.any (fun t => t.water && t.x == c.x && t.y == c.y) then
      { c with dead := true }
    else c)

/-- `plant_growth_system` (lines 966-1017): with probability
`plant_spawn_chance_per_tick` pick a random cell; spawn a plant if some
non-water tile is there and no plant or soil marker occupies it. -/
def plant_growth_system (cfg : SimulationConfig) (rchance : ℚ) (rx ry : Int)
    (tiles : List Tile) (plants : List Plant) (soils : List Soil)
    (freshId : Nat) : List Plant :=
  if rchance < cfg.plant_spawn_chance_per_tick then
    let x := (rx.natAbs : Int) % (cfg.map_size * 2) - cfg.map_size
    let y := (ry.natAbs : Int) % (cfg.map_size * 2) - cfg.map_size
    let valid_ground := tiles.any (fun t => !t.water && t.x == x && t.y == y)
    let occupied := plants.any (fun p => p.x == x && p.y == y) ||
      soils.any (fun s => s.x == x && s.y == y)
    if valid_ground && !occupied then
      plants ++ [{ id := freshId, x := x, y := y, dead := false }]
    else plants
  else plants

/-- `handle_exhaustion` (lines 1268-1282): tick every soil timer, despawn
the finished ones. -/
def handle_exhaustion (dt : ℚ) (soils : List Soil) : List Soil :=
  soils.filterMap (fun s =>
    if s.remaining - dt ≤ 0 then none else some { s with remaining := s.remaining - dt })

/-- `reaper_system` (lines 1257-1266): despawn every entity flagged dead. -/
def reaper_system (cs : List Creature) (plants : List Plant) :
    List Creature × List Plant :=
  (cs.filter (fun c => !c.dead), plants.filter (fun p => !p.dead))

/-! ## The tick -/

/-- The whole simulation state owned by the core. -/
structure World where
  creatures : List Creature
  plants : List Plant
  soils : List Soil
  tiles : List Tile
  pop : PopulationStats
  freshId : Nat
deriving DecidableEq

/-- The `water_tiles` snapshot of `move_creatures` comes from
`Query<&GridPosition, With<Water>>`: it matches entities carrying **both**
components.  `Water` is only ever inserted on map tiles (which carry `Tile`
but no `GridPosition`), and no `GridPosition`-carrying entity (creature,
plant, soil marker) ever receives `Water`, so this snapshot is empty in
every reachable world — the water-fear movement penalty can never fire. -/
def moveWaterSnapshot (_w : World) : List (Int × Int) := []

/-- The random draws consumed by one tick. -/
structure TickRng where
  moveDraws : Nat → Int
  reproDraws : Nat → ℚ
  growthChance : ℚ
  growthX : Int
  growthY : Int

/-- One tick up to (but excluding) the reap, in the fixed pipeline order of
the specification: state update, eating, predation, reproduction, movement,
environment dynamics, drowning.  Soil markers spawned by eating or predation
this tick join the soil list after the decay pass (deferred spawns). -/
def tickCore (cfg : SimulationConfig) (dt : ℚ) (r : TickRng) (w : World) :
    World :=
  let cs1 := creature_state_update cfg dt w.creatures
  let eat := creature_eating cfg w.plants cs1
  let hunt := predator_hunting_system eat.2.1
  let rep := creature_reproduction cfg hunt.1 r.reproDraws w.freshId w.pop
  let nEvents := (reproEvents cfg hunt.1 r.reproDraws).length
  let plantPos := eat.1.map (fun p => (p.x, p.y))
  let cs5 := move_creatures cfg dt r.moveDraws rep.1 plantPos (moveWaterSnapshot w)
  let soils6 := handle_exhaustion dt w.soils ++ eat.2.2.1 ++ hunt.2
  let plants6 := plant_growth_system cfg r.growthChance r.growthX r.growthY
    w.tiles eat.1 soils6 (w.freshId + nEvents)
  let cs7 := handle_drowning cs5 w.tiles
  { creatures := cs7, plants := plants6, soils := soils6, tiles := w.tiles,
    pop := rep.2, freshId := w.freshId + nEvents + 1 }

/-- One full tick: `tickCore` followed by the reap. -/
def tick (cfg : SimulationConfig) (dt : ℚ) (r : TickRng) (w : World) : World :=
  let wc := tickCore cfg dt r w
  let reap := reaper_system wc.creatures wc.plants
  { wc with creatures := reap.1, plants := reap.2 }

/-- C10: the predation step never reads the predator's activity state: an
adult wolf that is Digesting, Overfed or BerryStunned still kills a
colocated live sheep, has its hunger reset to −5 and `Digesting`
(re-)applied. -/
theorem claim_C10 (cs : List Creature) (w : Creature)
    (hw : w ∈ cs) (hlive : w.dead = false) (hsp : w.species_id = 1)
    (hadult : w.is_adult = true)
    (_hstate : w.digesting = true ∨ w.overfed ≠ none ∨ w.berry_stun ≠ none)
    (hs : ∃ s ∈ cs, s.dead = false ∧ s.species_id = 0 ∧ s.x = w.x ∧ s.y = w.y) :
    (∃ w2 ∈ (predator_hunting_system cs).1,
        w2.id = w.id ∧ w2.hunger = -5 ∧ w2.digesting = true) ∧
    (∃ s2 ∈ (predator_hunting_system cs).1,
        s2.species_id = 0 ∧ s2.x = w.x ∧ s2.y = w.y ∧ s2.dead = true) :=
  (hunt_hits cs w hw hlive hsp hadult hs).1

/-- Concrete digesting wolf and colocated sheep for the C10 witness. -/
def wolfC10 : Creature :=
  { baseCreature with
    id := 20, species_id := 1, sight_range := 10, digesting := true, hunger := -2 }

def sheepC10 : Creature := { baseCreature with id := 21 }

theorem claim_C10_witness :
    (∃ w2 ∈ (predator_hunting_system [sheepC10, wolfC10]).1,
        w2.id = wolfC10.id ∧ w2.hunger = -5 ∧ w2.digesting = true) ∧
    (∃ s2 ∈ (predator_hunting_system [sheepC10, wolfC10]).1,
        s2.species_id = 0 ∧ s2.x = wolfC10.x ∧ s2.y = wolfC10.y ∧ s2.dead = true) :=
  claim_C10 [sheepC10, wolfC10] wolfC10 (by decide) (by decide) (by decide)
    (by decide) (Or.inl (by decide))
    ⟨sheepC10, by decide, by decide, by decide, by decide, by decide⟩

/-- C9: every live creature standing on a water tile is flagged dead by the
drowning step, and the outcome does not depend on the `scared_of_water`
trait: the step commutes with any per-creature reassignment of that trait
(the system's queries never read `CreatureBehavior`). -/
theorem claim_C9 (cs : List Creature) (tiles : List Tile) :
    (∀ c ∈ cs, c.dead = false →
      (∃ t ∈ tiles, t.water = true ∧ t.x = c.x ∧ t.y = c.y) →
      ∃ c2 ∈ handle_drowning cs tiles, c2.id = c.id ∧ c2.dead = true) ∧
    (∀ f : Nat → Bool,
      handle_drowning (cs.map (fun c => { c with scared_of_water := f c.id })) tiles
        = (handle_drowning cs tiles).map
            (fun c => { c with scared_of_water := f c.id })) := by
  constructor
  · intro c hc hdead ⟨t, ht, hwat, hx, hy⟩
    refine ⟨_, List.mem_map_of_mem _ hc, ?_⟩
    rw [if_neg (by rw [hdead]; exact Bool.false_ne_true)]
    have hany : (tiles.any (fun t => t.water && t.x == c.x && t.y == c.y)) = true := by
      refine List.any_eq_true.mpr ⟨t, ht, ?_⟩
      simp only [Bool.and_eq_true, beq_iff_eq]
      exact ⟨⟨hwat, hx⟩, hy⟩
    rw [if_pos hany]
    exact ⟨rfl, rfl⟩
  · intro f
    unfold handle_drowning
    rw [List.map_map, List.map_map]
    apply List.map_congr_left
    intro c _
    simp only [Function.comp_apply]
    by_cases hdead : c.dead = true
    · simp [hdead]
    · simp only [Bool.not_eq_true] at hdead
      by_cases hany : (tiles.any (fun t => t.water && t.x == c.x && t.y == c.y)) = true
      · simp [hdead, hany]
      · simp [hdead, hany]

/-- Concrete water world for the C9 witness: one live creature on a water
tile. -/
def creatureC9 : Creature := { baseCreature with id := 30, x := 2, y := 2 }

def tileC9 : Tile := { x := 2, y := 2, water := true }

theorem claim_C9_witness :
    (∃ c2 ∈ handle_drowning [creatureC9] [tileC9],
        c2.id = creatureC9.id ∧ c2.dead = true) ∧
    handle_drowning
        ([creatureC9].map (fun c => { c with scared_of_water := (fun _n => false) c.id }))
        [tileC9]
      = (handle_drowning [creatureC9] [tileC9]).map
          (fun c => { c with scared_of_water := (fun _n => false) c.id }) := by
  constructor
  · exact (claim_C9 [creatureC9] [tileC9]).1 creatureC9 (by decide) (by decide)
      ⟨tileC9, by decide, by decide, by decide, by decide⟩
  · exact (claim_C9 [creatureC9] [tileC9]).2 (fun _n => false)

/-- A hit of `findEaterGo` points at a creature satisfying the predicate. -/
theorem findEaterGo_spec (pred : Creature → Bool) :
    ∀ (cs : List Creature) (i j : Nat), findEaterGo pred cs i = some j →
      i ≤ j ∧ ∃ c, cs[j - i]? = some c ∧ pred c = true := by
  intro cs
  induction cs with
  | nil => intro i j h; cases h
  | cons c cs ih =>
    intro i j h
    unfold findEaterGo at h
    by_cases hp : pred c = true
    · rw [if_pos hp] at h
      cases h
      exact ⟨le_refl _, c, by simp, hp⟩
    · rw [if_neg hp] at h
      rcases ih (i + 1) j h with ⟨hij, c2, hc2, hpc2⟩
      refine ⟨by omega, c2, ?_, hpc2⟩
      have hji : j - i = (j - (i + 1)) + 1 := by omega
      rw [hji]
      simpa using hc2

/-- A hit of `findEater` is an eligible eater. -/
theorem findEater_spec {cfg : SimulationConfig} {all : List Creature} {p : Plant}
    {cs : List Creature} {j : Nat} (h : findEater cfg all p cs = some j) :
    ∃ c, cs[j]? = some c ∧ eligibleEater cfg all p c = true := by
  rcases findEaterGo_spec _ cs 0 j h with ⟨_, c, hc, hp⟩
  exact ⟨c, by simpa using hc, hp⟩

/-- For a sheep the eater filters contain no species-specific gate: only
liveness, non-digestion, the cell match, the fullness skip and altruism. -/
theorem eligibleEater_sheep (cfg : SimulationConfig) (all : List Creature)
    (p : Plant) (c : Creature) (hsp : c.species_id = 0) :
    eligibleEater cfg all p c = true ↔
      (c.dead = false ∧ c.digesting = false ∧ c.x = p.x ∧ c.y = p.y ∧
       ¬(c.hunger < cfg.eat_skip_if_hunger_below) ∧
       altruismBlocked all c = false) := by
  unfold eligibleEater
  rw [show (c.species_id == 1) = false by simp [hsp],
      show (c.species_id == 0) = true by simp [hsp]]
  simp only [Bool.false_and, Bool.not_false, Bool.true_and, Bool.and_true,
    Bool.and_eq_true, Bool.not_eq_true', beq_iff_eq, decide_eq_false_iff_not,
    not_lt]
  tauto

/-- For a wolf the eater filters are the fruit gate (baby, or hunger ≤ 30,
or hunger ≥ 70) plus liveness, non-digestion, the cell match and the
fullness skip; altruism never applies to wolves. -/
theorem eligibleEater_wolf (cfg : SimulationConfig) (all : List Creature)
    (p : Plant) (c : Creature) (hsp : c.species_id = 1) :
    eligibleEater cfg all p c = true ↔
      (c.dead = false ∧ c.digesting = false ∧ c.x = p.x ∧ c.y = p.y ∧
       (c.is_adult = false ∨ c.hunger ≤ 30 ∨ 70 ≤ c.hunger) ∧
       ¬(c.hunger < cfg.eat_skip_if_hunger_below)) := by
  unfold eligibleEater wolf_can_eat_plant
  rw [show (c.species_id == 1) = true by simp [hsp],
      show (c.species_id == 0) = false by simp [hsp]]
  simp only [Bool.false_and, Bool.not_false, Bool.true_and, Bool.and_true,
    Bool.not_not, Bool.and_eq_true, Bool.or_eq_true, Bool.not_eq_true',
    beq_iff_eq, decide_eq_true_eq, decide_eq_false_iff_not, not_lt]
  tauto

/-- Each plant contributes at most one eat event. -/
theorem eat_events_le (cfg : SimulationConfig) (all : List Creature) :
    ∀ (ps : List Plant) (cs : List Creature),
      (creature_eating_go cfg all ps cs).2.2.2.length ≤ ps.length := by
  intro ps
  induction ps with
  | nil => intro cs; simp [creature_eating_go]
  | cons p ps ih =>
    intro cs
    unfold creature_eating_go
    by_cases hd : p.dead = true
    · rw [if_pos hd, List.length_cons]
      exact le_trans (ih cs) (Nat.le_succ _)
    · rw [if_neg hd]
      cases hfe : findEater cfg all p cs with
      | none =>
        rw [List.length_cons]
        exact le_trans (ih cs) (Nat.le_succ _)
      | some j =>
        rw [List.length_cons]
        exact Nat.succ_le_succ (ih (applyEat cfg cs j))

/-- C4: a sheep faces no species gate when standing on a live plant, a wolf
eats a plant only when baby or hunger ≤ 30 or hunger ≥ 70; hunger below the
fullness threshold (5) always skips; a successful eat resets the eater's
hunger to 0, flags the plant dead, spawns an `ExhaustedSoil` marker with the
configured lifetime at the cell, and berry-stuns a wolf for
`base_move_seconds * wolf_berry_stun_ticks` seconds (= 2 × the base move
interval at the default config); and each plant produces at most one eat
event per run. -/
theorem claim_C4 (cfg : SimulationConfig) :
    (∀ (all : List Creature) (p : Plant) (c : Creature), c.species_id = 0 →
      (eligibleEater cfg all p c = true ↔
        (c.dead = false ∧ c.digesting = false ∧ c.x = p.x ∧ c.y = p.y ∧
         ¬(c.hunger < cfg.eat_skip_if_hunger_below) ∧
         altruismBlocked all c = false))) ∧
    (∀ (all : List Creature) (p : Plant) (c : Creature), c.species_id = 1 →
      (eligibleEater cfg all p c = true ↔
        (c.dead = false ∧ c.digesting = false ∧ c.x = p.x ∧ c.y = p.y ∧
         (c.is_adult = false ∨ c.hunger ≤ 30 ∨ 70 ≤ c.hunger) ∧
         ¬(c.hunger < cfg.eat_skip_if_hunger_below)))) ∧
    (∀ (all : List Creature) (p : Plant) (c : Creature),
      c.hunger < cfg.eat_skip_if_hunger_below →
      eligibleEater cfg all p c = false) ∧
    (∀ (all : List Creature) (p : Plant) (ps : List Plant) (cs : List Creature)
      (j : Nat), p.dead = false → findEater cfg all p cs = some j →
      ∃ c, cs[j]? = some c ∧ eligibleEater cfg all p c = true ∧
        (creature_eating_go cfg all (p :: ps) cs).1.head?
          = some { p with dead := true } ∧
        (creature_eating_go cfg all (p :: ps) cs).2.2.1.head?
          = some ⟨p.x, p.y, cfg.soil_exhaust_seconds_after_eat⟩ ∧
        (creature_eating_go cfg all (p :: ps) cs).2.2.2.head? = some j ∧
        (applyEat cfg cs j)[j]?
          = some { c with
              hunger := 0
              berry_stun :=
                if c.species_id = 1 then
                  some (cfg.base_move_seconds * (cfg.wolf_berry_stun_ticks : ℚ))
                else c.berry_stun }) ∧
    (∀ (all : List Creature) (ps : List Plant) (cs : List Creature),
      (creature_eating_go cfg all ps cs).2.2.2.length ≤ ps.length) ∧
    defaultConfig.base_move_seconds * (defaultConfig.wolf_berry_stun_ticks : ℚ)
      = 2 * defaultConfig.base_move_seconds := by
  refine ⟨eligibleEater_sheep cfg, eligibleEater_wolf cfg, ?_, ?_,
    eat_events_le cfg, by norm_num [defaultConfig]⟩
  · intro all p c hlt
    unfold eligibleEater
    have hdec : decide (c.hunger < cfg.eat_skip_if_hunger_below) = true :=
      decide_eq_true hlt
    simp [hdec]
  · intro all p ps cs j hd hfe
    rcases findEater_spec hfe with ⟨c, hc, he⟩
    have hjlen : j < cs.length := by
      rw [List.getElem?_eq_some] at hc
      exact hc.1
    refine ⟨c, hc, he, ?_, ?_, ?_, ?_⟩
    · unfold creature_eating_go
      rw [if_neg (by rw [hd]; exact Bool.false_ne_true), hfe]
      rfl
    · unfold creature_eating_go
      rw [if_neg (by rw [hd]; exact Bool.false_ne_true), hfe]
      rfl
    · unfold creature_eating_go
      rw [if_neg (by rw [hd]; exact Bool.false_ne_true), hfe]
      rfl
    · unfold applyEat
      rw [hc]
      exact List.getElem?_set_self hjlen

/-- Concrete hungry sheep on a live plant for the C4 witness. -/
def sheepC4 : Creature := { baseCreature with id := 40, x := 5, y := 5, hunger := 40 }

def plantC4 : Plant := { id := 41, x := 5, y := 5, dead := false }

theorem claim_C4_witness :
    ∃ c, ([sheepC4])[0]? = some c ∧
      eligibleEater defaultConfig [sheepC4] plantC4 c = true ∧
      (creature_eating_go defaultConfig [sheepC4] [plantC4] [sheepC4]).1.head?
        = some { plantC4 with dead := true } ∧
      (creature_eating_go defaultConfig [sheepC4] [plantC4] [sheepC4]).2.2.1.head?
        = some ⟨plantC4.x, plantC4.y, defaultConfig.soil_exhaust_seconds_after_eat⟩ ∧
      (creature_eating_go defaultConfig [sheepC4] [plantC4] [sheepC4]).2.2.2.head?
        = some 0 ∧
      (applyEat defaultConfig [sheepC4] 0)[0]?
        = some { c with
            hunger := 0
            berry_stun :=
              if c.species_id = 1 then
                some (defaultConfig.base_move_seconds *
                  (defaultConfig.wolf_berry_stun_ticks : ℚ))
              else c.berry_stun } :=
  (claim_C4 defaultConfig).2.2.2.1 [sheepC4] plantC4 [] [sheepC4] 0
    (by decide) (by decide)

/-- Membership in the ordered combinations implies membership in the list. -/
theorem combPairs_mem : ∀ (l : List α) (p : α × α),
    p ∈ combPairs l → p.1 ∈ l ∧ p.2 ∈ l := by
  intro l
  induction l with
  | nil => intro p h; cases h
  | cons x xs ih =>
    intro p h
    unfold combPairs at h
    rcases List.mem_append.mp h with h1 | h2
    · rcases List.mem_map.mp h1 with ⟨y, hy, rfl⟩
      exact ⟨List.mem_cons_self _ _, List.mem_cons_of_mem _ hy⟩
    · rcases ih p h2 with ⟨ha, hb⟩
      exact ⟨List.mem_cons_of_mem _ ha, List.mem_cons_of_mem _ hb⟩

/-- Every birth event comes from a visited pair that passed all filters and
won its RNG draw. -/
theorem reproEventsGo_spec (cfg : SimulationConfig) (rng : Nat → ℚ) :
    ∀ (pairs : List (Creature × Creature)) (k : Nat) (e : BirthEvent),
      e ∈ reproEventsGo cfg rng pairs k →
      (e.a, e.b) ∈ pairs ∧ eligiblePair e.a e.b = true ∧
      e.draw < (cfg.s e.a.species_id).reproduction_chance := by
  intro pairs
  induction pairs with
  | nil => intro k e h; cases h
  | cons q ps ih =>
    intro k e h
    unfold reproEventsGo at h
    by_cases he : eligiblePair q.1 q.2 = true
    · rw [if_pos he] at h
      by_cases hr : rng k < (cfg.s q.1.species_id).reproduction_chance
      · rw [if_pos hr] at h
        rcases List.mem_cons.mp h with rfl | h2
        · refine ⟨?_, he, hr⟩
          rw [show ((⟨q.1, q.2, rng k⟩ : BirthEvent).a,
            (⟨q.1, q.2, rng k⟩ : BirthEvent).b) = q from Prod.mk.eta]
          exact List.mem_cons_self _ _
        · rcases ih (k + 1) e h2 with ⟨h3, h4, h5⟩
          exact ⟨List.mem_cons_of_mem _ h3, h4, h5⟩
      · rw [if_neg hr] at h
        rcases ih (k + 1) e h with ⟨h3, h4, h5⟩
        exact ⟨List.mem_cons_of_mem _ h3, h4, h5⟩
    · rw [if_neg he] at h
      rcases ih k e h with ⟨h3, h4, h5⟩
      exact ⟨List.mem_cons_of_mem _ h3, h4, h5⟩

/-- The pair filters, unfolded to propositions. -/
theorem eligiblePair_iff (a b : Creature) :
    eligiblePair a b = true ↔
      (a.is_adult = true ∧ b.is_adult = true ∧
       a.cooldown = none ∧ b.cooldown = none ∧
       a.digesting = false ∧ a.overfed = none ∧
       b.digesting = false ∧ b.overfed = none ∧
       a.species_id = b.species_id ∧ mdist a.x a.y b.x b.y ≤ 1) := by
  unfold eligiblePair
  simp only [Bool.and_eq_true, Bool.not_eq_true', beq_iff_eq,
    decide_eq_true_eq, Option.isNone_iff_eq_none]
  tauto

/-- Both parents of every event appear in the cooldown id list. -/
theorem parent_mem_foldr : ∀ (evs : List BirthEvent) (e : BirthEvent), e ∈ evs →
    e.a.id ∈ evs.foldr (fun e2 acc => e2.a.id :: e2.b.id :: acc) ([] : List Nat) ∧
    e.b.id ∈ evs.foldr (fun e2 acc => e2.a.id :: e2.b.id :: acc) ([] : List Nat) := by
  intro evs
  induction evs with
  | nil => intro e h; cases h
  | cons f fs ih =>
    intro e h
    rcases List.mem_cons.mp h with rfl | h2
    · exact ⟨List.mem_cons_self _ _,
        List.mem_cons_of_mem _ (List.mem_cons_self _ _)⟩
    · rcases ih e h2 with ⟨h3, h4⟩
      exact ⟨List.mem_cons_of_mem _ (List.mem_cons_of_mem _ h3),
        List.mem_cons_of_mem _ (List.mem_cons_of_mem _ h4)⟩

/-- The counter fold bumps `born` and `total_ever` once per event, keyed by
parent A's species. -/
theorem bump_fold : ∀ (evs : List BirthEvent) (pop : PopulationStats),
    ((evs.foldl (fun pp e => bumpStats pp e.a.species_id) pop).sheep.born
        = pop.sheep.born + evs.countP (fun e => e.a.species_id == 0)) ∧
    ((evs.foldl (fun pp e => bumpStats pp e.a.species_id) pop).sheep.total_ever
        = pop.sheep.total_ever + evs.countP (fun e => e.a.species_id == 0)) ∧
    ((evs.foldl (fun pp e => bumpStats pp e.a.species_id) pop).wolves.born
        = pop.wolves.born + evs.countP (fun e => !(e.a.species_id == 0))) ∧
    ((evs.foldl (fun pp e => bumpStats pp e.a.species_id) pop).wolves.total_ever
        = pop.wolves.total_ever + evs.countP (fun e => !(e.a.species_id == 0))) := by
  intro evs
  induction evs with
  | nil => intro pop; simp
  | cons e evs ih =>
    intro pop
    have ihb := ih (bumpStats pop e.a.species_id)
    by_cases hsid : e.a.species_id = 0
    · refine ⟨?_, ?_, ?_, ?_⟩ <;>
        · rw [List.foldl_cons, List.countP_cons]
          first
          | rw [ihb.1] | rw [ihb.2.1] | rw [ihb.2.2.1] | rw [ihb.2.2.2]
          simp [bumpStats, hsid] <;> omega
    · refine ⟨?_, ?_, ?_, ?_⟩ <;>
        · rw [List.foldl_cons, List.countP_cons]
          first
          | rw [ihb.1] | rw [ihb.2.1] | rw [ihb.2.2.1] | rw [ihb.2.2.2]
          simp [bumpStats, hsid] <;> omega

/-- C6: a birth only happens for an unordered pair of distinct live
creatures that are both adult, neither in cooldown, neither digesting nor
overfed, of the same species and at Manhattan distance ≤ 1, with a winning
draw against the species' reproduction chance; each event appends exactly
one baby at parent A's cell with parent A's traits, the species' sight
range, age 0 and not adult; both parents get the species cooldown; and the
species' born / total-ever counters rise by one per event. -/
theorem claim_C6 (cfg : SimulationConfig) (cs : List Creature) (rng : Nat → ℚ)
    (freshId : Nat) (pop : PopulationStats) :
    (∀ e ∈ reproEvents cfg cs rng,
      e.a ∈ cs.filter (fun c => !c.dead) ∧ e.b ∈ cs.filter (fun c => !c.dead) ∧
      e.a.is_adult = true ∧ e.b.is_adult = true ∧
      e.a.cooldown = none ∧ e.b.cooldown = none ∧
      e.a.digesting = false ∧ e.a.overfed = none ∧
      e.b.digesting = false ∧ e.b.overfed = none ∧
      e.a.species_id = e.b.species_id ∧
      mdist e.a.x e.a.y e.b.x e.b.y ≤ 1 ∧
      e.draw < (cfg.s e.a.species_id).reproduction_chance) ∧
    ((creature_reproduction cfg cs rng freshId pop).1.length
        = cs.length + (reproEvents cfg cs rng).length) ∧
    (∀ (k : Nat) (e : BirthEvent), (reproEvents cfg cs rng)[k]? = some e →
      (creature_reproduction cfg cs rng freshId pop).1[cs.length + k]?
          = some (mkBaby cfg e.a (freshId + k)) ∧
      (mkBaby cfg e.a (freshId + k)).x = e.a.x ∧
      (mkBaby cfg e.a (freshId + k)).y = e.a.y ∧
      (mkBaby cfg e.a (freshId + k)).species_id = e.a.species_id ∧
      (mkBaby cfg e.a (freshId + k)).sight_range
          = (cfg.s e.a.species_id).sight_range ∧
      (mkBaby cfg e.a (freshId + k)).scared_of_water = e.a.scared_of_water ∧
      (mkBaby cfg e.a (freshId + k)).altruistic = e.a.altruistic ∧
      (mkBaby cfg e.a (freshId + k)).seconds_alive = 0 ∧
      (mkBaby cfg e.a (freshId + k)).is_adult = false) ∧
    (∀ e ∈ reproEvents cfg cs rng,
      (∃ c2 ∈ (creature_reproduction cfg cs rng freshId pop).1,
        c2.id = e.a.id ∧
        c2.cooldown = some (cfg.s e.a.species_id).reproduction_cooldown_seconds) ∧
      (∃ c2 ∈ (creature_reproduction cfg cs rng freshId pop).1,
        c2.id = e.b.id ∧
        c2.cooldown = some (cfg.s e.b.species_id).reproduction_cooldown_seconds)) ∧
    ((creature_reproduction cfg cs rng freshId pop).2.sheep.born
        = pop.sheep.born
          + (reproEvents cfg cs rng).countP (fun e => e.a.species_id == 0)) ∧
    ((creature_reproduction cfg cs rng freshId pop).2.sheep.total_ever
        = pop.sheep.total_ever
          + (reproEvents cfg cs rng).countP (fun e => e.a.species_id == 0)) ∧
    ((creature_reproduction cfg cs rng freshId pop).2.wolves.born
        = pop.wolves.born
          + (reproEvents cfg cs rng).countP (fun e => !(e.a.species_id == 0))) ∧
    ((creature_reproduction cfg cs rng freshId pop).2.wolves.total_ever
        = pop.wolves.total_ever
          + (reproEvents cfg cs rng).countP (fun e => !(e.a.species_id == 0))) := by
  have hev : ∀ e ∈ reproEvents cfg cs rng,
      e.a ∈ cs.filter (fun c => !c.dead) ∧ e.b ∈ cs.filter (fun c => !c.dead) ∧
      eligiblePair e.a e.b = true ∧
      e.draw < (cfg.s e.a.species_id).reproduction_chance := by
    intro e he
    have hspec := reproEventsGo_spec cfg rng _ 0 e he
    have hmem := combPairs_mem _ _ hspec.1
    exact ⟨hmem.1, hmem.2, hspec.2.1, hspec.2.2⟩
  refine ⟨?_, ?_, ?_, ?_, (bump_fold _ pop).1, (bump_fold _ pop).2.1,
    (bump_fold _ pop).2.2.1, (bump_fold _ pop).2.2.2⟩
  · intro e he
    rcases hev e he with ⟨hma, hmb, helig0, hdraw⟩
    have helig := (eligiblePair_iff e.a e.b).mp helig0
    exact ⟨hma, hmb, helig.1, helig.2.1, helig.2.2.1, helig.2.2.2.1,
      helig.2.2.2.2.1, helig.2.2.2.2.2.1, helig.2.2.2.2.2.2.1,
      helig.2.2.2.2.2.2.2.1, helig.2.2.2.2.2.2.2.2.1,
      helig.2.2.2.2.2.2.2.2.2, hdraw⟩
  · unfold creature_reproduction
    simp [List.length_append, List.length_map, List.enum_length]
  · intro k e hk
    refine ⟨?_, rfl, rfl, rfl, rfl, rfl, rfl, rfl, rfl⟩
    unfold creature_reproduction
    rw [List.getElem?_append_right (by rw [List.length_map]; omega)]
    rw [List.length_map]
    have hidx : cs.length + k - cs.length = k := by omega
    rw [hidx, List.getElem?_map, List.getElem?_enum, hk]
    rfl
  · intro e he
    rcases hev e he with ⟨hma, hmb, _, _⟩
    have hacs : e.a ∈ cs := List.mem_of_mem_filter hma
    have hbcs : e.b ∈ cs := List.mem_of_mem_filter hmb
    have hpar := parent_mem_foldr (reproEvents cfg cs rng) e he
    constructor
    · refine ⟨_, List.mem_append_left _ (List.mem_map_of_mem _ hacs), ?_⟩
      rw [if_pos ?_]
      · exact ⟨rfl, rfl⟩
      · rw [List.contains_eq_any_beq]
        exact List.any_eq_true.mpr ⟨e.a.id, hpar.1, by simp⟩
    · refine ⟨_, List.mem_append_left _ (List.mem_map_of_mem _ hbcs), ?_⟩
      rw [if_pos ?_]
      · exact ⟨rfl, rfl⟩
      · rw [List.contains_eq_any_beq]
        exact List.any_eq_true.mpr ⟨e.b.id, hpar.2, by simp⟩

/-- Concrete adjacent adult sheep pair for the C6 witness. -/
def sheepA6 : Creature := { baseCreature with id := 60 }

def sheepB6 : Creature := { baseCreature with id := 61, x := 1 }

theorem claim_C6_witness :
    (creature_reproduction defaultConfig [sheepA6, sheepB6] (fun _k => 0) 100
        ⟨⟨0, 0⟩, ⟨0, 0⟩⟩).1[[sheepA6, sheepB6].length + 0]?
      = some (mkBaby defaultConfig
          (⟨sheepA6, sheepB6, 0⟩ : BirthEvent).a (100 + 0)) :=
  ((claim_C6 defaultConfig [sheepA6, sheepB6] (fun _k => 0) 100
      ⟨⟨0, 0⟩, ⟨0, 0⟩⟩).2.2.1 0 ⟨sheepA6, sheepB6, 0⟩ (by decide)).1

/-- The running best distance never increases. -/
theorem nearestGo_snd_le (p : α → Bool) (d : α → Int) :
    ∀ (xs : List α) (acc : Option α × Int), (nearestGo p d xs acc).2 ≤ acc.2 := by
  intro xs
  induction xs with
  | nil => intro acc; exact le_refl _
  | cons x xs ih =>
    intro acc
    unfold nearestGo
    by_cases h : p x = true ∧ d x < acc.2
    · rw [if_pos h]
      exact le_trans (ih _) (le_of_lt h.2)
    · rw [if_neg h]
      exact ih acc

/-- The final best distance is at most the distance of every candidate. -/
theorem nearestGo_min (p : α → Bool) (d : α → Int) :
    ∀ (xs : List α) (acc : Option α × Int) (x : α), x ∈ xs → p x = true →
      (nearestGo p d xs acc).2 ≤ d x := by
  intro xs
  induction xs with
  | nil => intro acc x hx; cases hx
  | cons z zs ih =>
    intro acc x hx hp
    unfold nearestGo
    rcases List.mem_cons.mp hx with rfl | hx2
    · by_cases h : p x = true ∧ d x < acc.2
      · rw [if_pos h]
        exact nearestGo_snd_le p d zs (some x, d x)
      · rw [if_neg h]
        have hle : acc.2 ≤ d x := by
          by_contra hlt
          exact h ⟨hp, by omega⟩
        exact le_trans (nearestGo_snd_le p d zs acc) hle
    · by_cases h : p z = true ∧ d z < acc.2
      · rw [if_pos h]
        exact ih _ x hx2 hp
      · rw [if_neg h]
        exact ih _ x hx2 hp

/-- The scan either keeps its accumulator or returns some candidate of the
list together with its distance. -/
theorem nearestGo_cases (p : α → Bool) (d : α → Int) :
    ∀ (xs : List α) (acc : Option α × Int),
      nearestGo p d xs acc = acc ∨
      ∃ c ∈ xs, p c = true ∧ nearestGo p d xs acc = (some c, d c) := by
  intro xs
  induction xs with
  | nil => intro acc; exact Or.inl rfl
  | cons z zs ih =>
    intro acc
    unfold nearestGo
    by_cases h : p z = true ∧ d z < acc.2
    · rw [if_pos h]
      rcases ih (some z, d z) with heq | ⟨c, hc, hp2, heq⟩
      · exact Or.inr ⟨z, List.mem_cons_self _ _, h.1, heq⟩
      · exact Or.inr ⟨c, List.mem_cons_of_mem _ hc, hp2, heq⟩
    · rw [if_neg h]
      rcases ih acc with heq | ⟨c, hc, hp2, heq⟩
      · exact Or.inl heq
      · exact Or.inr ⟨c, List.mem_cons_of_mem _ hc, hp2, heq⟩

/-- When some candidate beats the accumulator, the best strictly improves. -/
theorem nearestGo_progress (p : α → Bool) (d : α → Int) :
    ∀ (xs : List α) (acc : Option α × Int),
      (∃ x ∈ xs, p x = true ∧ d x < acc.2) →
      (nearestGo p d xs acc).2 < acc.2 := by
  intro xs
  induction xs with
  | nil => intro acc ⟨x, hx, _⟩; cases hx
  | cons z zs ih =>
    intro acc ⟨x, hx, hp, hd⟩
    unfold nearestGo
    rcases List.mem_cons.mp hx with rfl | hx2
    · rw [if_pos ⟨hp, hd⟩]
      exact lt_of_le_of_lt (nearestGo_snd_le p d zs (some x, d x)) hd
    · by_cases h : p z = true ∧ d z < acc.2
      · rw [if_pos h]
        exact lt_of_le_of_lt (nearestGo_snd_le p d zs (some z, d z)) h.2
      · rw [if_neg h]
        exact ih acc ⟨x, hx2, hp, hd⟩

/-- Full characterization when some candidate beats the initial bound: the
result is some candidate of the list at minimal candidate distance. -/
theorem nearestGo_found (p : α → Bool) (d : α → Int) (xs : List α) (init : Int)
    (h : ∃ x ∈ xs, p x = true ∧ d x < init) :
    ∃ c ∈ xs, p c = true ∧
      (nearestGo p d xs ((none : Option α), init)).1 = some c ∧
      (nearestGo p d xs ((none : Option α), init)).2 = d c ∧
      ∀ x ∈ xs, p x = true → d c ≤ d x := by
  have hlt := nearestGo_progress p d xs (none, init) h
  rcases nearestGo_cases p d xs (none, init) with heq | ⟨c, hc, hp2, heq⟩
  · rw [heq] at hlt
    exact absurd hlt (lt_irrefl _)
  · refine ⟨c, hc, hp2, by rw [heq], by rw [heq], ?_⟩
    intro x hx hpx
    have hmin := nearestGo_min p d xs (none, init) x hx hpx
    rw [heq] at hmin
    exact hmin

/-- For a sheep the `best_prey` accumulator is never touched. -/
theorem ppScan_fst_keep (me : Creature) (tt : Int) (hsp : me.species_id = 0) :
    ∀ (os : List CreatureSnapshot)
      (acc : Option (CreatureSnapshot × Int) × Option (CreatureSnapshot × Int)),
      (preyPredScanGo me tt os acc).1 = acc.1 := by
  intro os
  induction os with
  | nil => intro acc; rfl
  | cons o os ih =>
    intro acc
    unfold preyPredScanGo
    by_cases h1 : o.entity == me.id
    · rw [if_pos h1]; exact ih acc
    · rw [if_neg h1]
      by_cases h2 : me.sight_range ≤ mdist me.x me.y o.x o.y
      · rw [if_pos h2]; exact ih acc
      · rw [if_neg h2]
        rw [if_neg (by rw [hsp]; intro hcon; exact absurd hcon.1 (by omega))]
        by_cases h3 : me.species_id = 0 ∧ o.species = 1
        · rw [if_pos h3]
          by_cases h4 : o.is_adult = true ∧
              closerThan acc.2 (mdist me.x me.y o.x o.y) = true
          · rw [if_pos h4]
            exact ih _
          · rw [if_neg h4]
            exact ih acc
        · rw [if_neg h3]
          exact ih acc

/-- For a wolf the `best_predator` accumulator is never touched. -/
theorem ppScan_snd_keep (me : Creature) (tt : Int) (hsp : me.species_id = 1) :
    ∀ (os : List CreatureSnapshot)
      (acc : Option (CreatureSnapshot × Int) × Option (CreatureSnapshot × Int)),
      (preyPredScanGo me tt os acc).2 = acc.2 := by
  intro os
  induction os with
  | nil => intro acc; rfl
  | cons o os ih =>
    intro acc
    unfold preyPredScanGo
    by_cases h1 : o.entity == me.id
    · rw [if_pos h1]; exact ih acc
    · rw [if_neg h1]
      by_cases h2 : me.sight_range ≤ mdist me.x me.y o.x o.y
      · rw [if_pos h2]; exact ih acc
      · rw [if_neg h2]
        by_cases h3 : me.species_id = 1 ∧ o.species = 0
        · rw [if_pos h3]
          by_cases h4 : me.is_adult = true ∧ ¬(tt = 2 ∧ me.hunger ≤ 50) ∧
              closerThan acc.1 (mdist me.x me.y o.x o.y) = true
          · rw [if_pos h4]
            exact ih _
          · rw [if_neg h4]
            exact ih acc
        · rw [if_neg h3]
          rw [if_neg (by rw [hsp]; intro hcon; exact absurd hcon.1 (by omega))]
          exact ih acc

/-- If no visible adult wolf (other than the creature itself) is in the
snapshot, the `best_predator` accumulator stays `none`. -/
theorem ppScan_snd_none (me : Creature) (tt : Int) :
    ∀ (os : List CreatureSnapshot)
      (acc : Option (CreatureSnapshot × Int) × Option (CreatureSnapshot × Int)),
      acc.2 = none →
      (∀ o ∈ os, ¬(o.entity ≠ me.id ∧ o.species = 1 ∧ o.is_adult = true ∧
        mdist me.x me.y o.x o.y < me.sight_range)) →
      (preyPredScanGo me tt os acc).2 = none := by
  intro os
  induction os with
  | nil => intro acc hacc _; exact hacc
  | cons o os ih =>
    intro acc hacc hno
    have hno2 : ∀ o2 ∈ os, ¬(o2.entity ≠ me.id ∧ o2.species = 1 ∧
        o2.is_adult = true ∧ mdist me.x me.y o2.x o2.y < me.sight_range) :=
      fun o2 h2 => hno o2 (List.mem_cons_of_mem _ h2)
    unfold preyPredScanGo
    by_cases h1 : o.entity == me.id
    · rw [if_pos h1]; exact ih acc hacc hno2
    · rw [if_neg h1]
      by_cases h2 : me.sight_range ≤ mdist me.x me.y o.x o.y
      · rw [if_pos h2]; exact ih acc hacc hno2
      · rw [if_neg h2]
        by_cases h3 : me.species_id = 1 ∧ o.species = 0
        · rw [if_pos h3]
          by_cases h4 : me.is_adult = true ∧ ¬(tt = 2 ∧ me.hunger ≤ 50) ∧
              closerThan acc.1 (mdist me.x me.y o.x o.y) = true
          · rw [if_pos h4]
            exact ih _ hacc hno2
          · rw [if_neg h4]
            exact ih acc hacc hno2
        · rw [if_neg h3]
          by_cases h5 : me.species_id = 0 ∧ o.species = 1
          · rw [if_pos h5]
            have hnadult : ¬(o.is_adult = true ∧
                closerThan acc.2 (mdist me.x me.y o.x o.y) = true) := by
              intro hcon
              refine hno o (List.mem_cons_self _ _) ⟨?_, h5.2, hcon.1, by omega⟩
              intro hid
              exact h1 (by simp [hid])
            rw [if_neg hnadult]
            exact ih acc hacc hno2
          · rw [if_neg h5]
            exact ih acc hacc hno2

/-- A `best_prey` hit is a visible sheep of the snapshot (or was already in
the accumulator). -/
theorem ppScan_fst_elem (me : Creature) (tt : Int) :
    ∀ (os : List CreatureSnapshot)
      (acc : Option (CreatureSnapshot × Int) × Option (CreatureSnapshot × Int))
      (q : CreatureSnapshot × Int),
      (preyPredScanGo me tt os acc).1 = some q →
      acc.1 = some q ∨
      (q.1 ∈ os ∧ q.1.entity ≠ me.id ∧ q.1.species = 0 ∧
       q.2 = mdist me.x me.y q.1.x q.1.y ∧ q.2 < me.sight_range) := by
  intro os
  induction os with
  | nil => intro acc q h; exact Or.inl h
  | cons o os ih =>
    intro acc q h
    unfold preyPredScanGo at h
    by_cases h1 : o.entity == me.id
    · rw [if_pos h1] at h
      rcases ih acc q h with ha | hb
      · exact Or.inl ha
      · exact Or.inr ⟨List.mem_cons_of_mem _ hb.1, hb.2⟩
    · rw [if_neg h1] at h
      by_cases h2 : me.sight_range ≤ mdist me.x me.y o.x o.y
      · rw [if_pos h2] at h
        rcases ih acc q h with ha | hb
        · exact Or.inl ha
        · exact Or.inr ⟨List.mem_cons_of_mem _ hb.1, hb.2⟩
      · rw [if_neg h2] at h
        by_cases h3 : me.species_id = 1 ∧ o.species = 0
        · rw [if_pos h3] at h
          by_cases h4 : me.is_adult = true ∧ ¬(tt = 2 ∧ me.hunger ≤ 50) ∧
              closerThan acc.1 (mdist me.x me.y o.x o.y) = true
          · rw [if_pos h4] at h
            rcases ih _ q h with ha | hb
            · cases ha
              refine Or.inr ⟨List.mem_cons_self _ _, ?_, h3.2, rfl, by omega⟩
              intro hid
              refine h1 ?_
              simp only [beq_iff_eq]
              exact hid
            · exact Or.inr ⟨List.mem_cons_of_mem _ hb.1, hb.2⟩
          · rw [if_neg h4] at h
            rcases ih acc q h with ha | hb
            · exact Or.inl ha
            · exact Or.inr ⟨List.mem_cons_of_mem _ hb.1, hb.2⟩
        · rw [if_neg h3] at h
          by_cases h5 : me.species_id = 0 ∧ o.species = 1
          · rw [if_pos h5] at h
            by_cases h6 : o.is_adult = true ∧
                closerThan acc.2 (mdist me.x me.y o.x o.y) = true
            · rw [if_pos h6] at h
              rcases ih _ q h with ha | hb
              · exact Or.inl ha
              · exact Or.inr ⟨List.mem_cons_of_mem _ hb.1, hb.2⟩
            · rw [if_neg h6] at h
              rcases ih acc q h with ha | hb
              · exact Or.inl ha
              · exact Or.inr ⟨List.mem_cons_of_mem _ hb.1, hb.2⟩
          · rw [if_neg h5] at h
            rcases ih acc q h with ha | hb
            · exact Or.inl ha
            · exact Or.inr ⟨List.mem_cons_of_mem _ hb.1, hb.2⟩

/-- Once the `best_prey` accumulator holds a value it keeps holding one. -/
theorem ppScan_fst_stays (me : Creature) (tt : Int) :
    ∀ (os : List CreatureSnapshot)
      (acc : Option (CreatureSnapshot × Int) × Option (CreatureSnapshot × Int)),
      acc.1.isSome = true → (preyPredScanGo me tt os acc).1.isSome = true := by
  intro os
  induction os with
  | nil => intro acc h; exact h
  | cons o os ih =>
    intro acc h
    unfold preyPredScanGo
    by_cases h1 : o.entity == me.id
    · rw [if_pos h1]; exact ih acc h
    · rw [if_neg h1]
      by_cases h2 : me.sight_range ≤ mdist me.x me.y o.x o.y
      · rw [if_pos h2]; exact ih acc h
      · rw [if_neg h2]
        by_cases h3 : me.species_id = 1 ∧ o.species = 0
        · rw [if_pos h3]
          by_cases h4 : me.is_adult = true ∧ ¬(tt = 2 ∧ me.hunger ≤ 50) ∧
              closerThan acc.1 (mdist me.x me.y o.x o.y) = true
          · rw [if_pos h4]
            exact ih _ rfl
          · rw [if_neg h4]
            exact ih acc h
        · rw [if_neg h3]
          by_cases h5 : me.species_id = 0 ∧ o.species = 1
          · rw [if_pos h5]
            by_cases h6 : o.is_adult = true ∧
                closerThan acc.2 (mdist me.x me.y o.x o.y) = true
            · rw [if_pos h6]
              exact ih _ h
            · rw [if_neg h6]
              exact ih acc h
          · rw [if_neg h5]
            exact ih acc h

/-- An adult wolf that is not mate-locked finds a `best_prey` whenever some
visible sheep is in the snapshot. -/
theorem ppScan_fst_found (me : Creature) (tt : Int) (hsp : me.species_id = 1)
    (hadult : me.is_adult = true) (hnm : ¬(tt = 2 ∧ me.hunger ≤ 50)) :
    ∀ (os : List CreatureSnapshot)
      (acc : Option (CreatureSnapshot × Int) × Option (CreatureSnapshot × Int)),
      (∃ o ∈ os, o.entity ≠ me.id ∧ o.species = 0 ∧
        mdist me.x me.y o.x o.y < me.sight_range) →
      (preyPredScanGo me tt os acc).1.isSome = true := by
  intro os
  induction os with
  | nil => intro acc ⟨o, ho, _⟩; cases ho
  | cons o os ih =>
    intro acc ⟨o2, ho2, hid, hsp2, hdist⟩
    unfold preyPredScanGo
    rcases List.mem_cons.mp ho2 with rfl | ho3
    · rw [if_neg (by simp [hid])]
      rw [if_neg (by omega)]
      rw [if_pos ⟨hsp, hsp2⟩]
      by_cases h4 : me.is_adult = true ∧ ¬(tt = 2 ∧ me.hunger ≤ 50) ∧
          closerThan acc.1 (mdist me.x me.y o2.x o2.y) = true
      · rw [if_pos h4]
        exact ppScan_fst_stays me tt os _ rfl
      · rw [if_neg h4]
        have hcl : closerThan acc.1 (mdist me.x me.y o2.x o2.y) = false := by
          rcases hcl2 : closerThan acc.1 (mdist me.x me.y o2.x o2.y) with _ | _
          · rfl
          · exact absurd ⟨hadult, hnm, hcl2⟩ h4
        have hsome : acc.1.isSome = true := by
          unfold closerThan at hcl
          cases hacc : acc.1 with
          | none => rw [hacc] at hcl; cases hcl
          | some q => rfl
        exact ppScan_fst_stays me tt os acc hsome
    · by_cases h1 : o.entity == me.id
      · rw [if_pos h1]; exact ih acc ⟨o2, ho3, hid, hsp2, hdist⟩
      · rw [if_neg h1]
        by_cases h2 : me.sight_range ≤ mdist me.x me.y o.x o.y
        · rw [if_pos h2]; exact ih acc ⟨o2, ho3, hid, hsp2, hdist⟩
        · rw [if_neg h2]
          by_cases h3 : me.species_id = 1 ∧ o.species = 0
          · rw [if_pos h3]
            by_cases h4 : me.is_adult = true ∧ ¬(tt = 2 ∧ me.hunger ≤ 50) ∧
                closerThan acc.1 (mdist me.x me.y o.x o.y) = true
            · rw [if_pos h4]
              exact ppScan_fst_stays me tt os _ rfl
            · rw [if_neg h4]
              exact ih acc ⟨o2, ho3, hid, hsp2, hdist⟩
          · rw [if_neg h3]
            by_cases h5 : me.species_id = 0 ∧ o.species = 1
            · rw [if_pos h5]
              by_cases h6 : o.is_adult = true ∧
                  closerThan acc.2 (mdist me.x me.y o.x o.y) = true
              · rw [if_pos h6]
                exact ih _ ⟨o2, ho3, hid, hsp2, hdist⟩
              · rw [if_neg h6]
                exact ih acc ⟨o2, ho3, hid, hsp2, hdist⟩
            · rw [if_neg h5]
              exact ih acc ⟨o2, ho3, hid, hsp2, hdist⟩

/-- The sheep-mate loop filter, unfolded to propositions. -/
theorem sheepMatePred_iff (me : Creature) (o : CreatureSnapshot) :
    (!(o.entity == me.id) && (o.species == 0) &&
      decide (1 < mdist me.x me.y o.x o.y) &&
      decide (mdist me.x me.y o.x o.y < me.sight_range)) = true ↔
    (o.entity ≠ me.id ∧ o.species = 0 ∧ 1 < mdist me.x me.y o.x o.y ∧
      mdist me.x me.y o.x o.y < me.sight_range) := by
  simp only [Bool.and_eq_true, Bool.not_eq_true', beq_eq_false_iff_ne, ne_eq,
    beq_iff_eq, decide_eq_true_eq]
  tauto

/-- Concrete state refuting C8 as stated: a full breeding-eligible adult
sheep whose only same-species neighbour in sight is a baby.  The baby is
chosen as the mate target (the sheep mate loop never tests `is_adult`, unlike
the wolf mate loop). -/
def sheepC8 : Creature := { baseCreature with id := 80 }

def babySnapC8 : CreatureSnapshot :=
  { entity := 81, x := 2, y := 0, species := 0, is_adult := false }

theorem claim_C8_counterexample :
    sheepMateScan sheepC8 [babySnapC8] = some babySnapC8 ∧
    babySnapC8.is_adult = false ∧
    selectTarget sheepC8 [babySnapC8] [] =
      ⟨some (babySnapC8.x, babySnapC8.y), 2, 20⟩ := by decide

/-- C8 (amended): for a full, breeding-eligible sheep the mate target is the
nearest same-species creature — adult or not — at distance `1 < d < sight`,
and absent any visible adult wolf this mate target is the final selected
target with type 2 and weight 20.  (The claim's adult-only restriction does
not hold; see the counterexample.) -/
theorem claim_C8 (me : Creature) (snap : List CreatureSnapshot)
    (plants : List (Int × Int))
    (hsp : me.species_id = 0) (hfull : me.hunger ≤ 10)
    (hadult : me.is_adult = true) (hcd : me.cooldown = none)
    (hov : me.overfed = none) (hsight : me.sight_range ≤ 9999)
    (hcand : ∃ o ∈ snap, o.entity ≠ me.id ∧ o.species = 0 ∧
      1 < mdist me.x me.y o.x o.y ∧ mdist me.x me.y o.x o.y < me.sight_range) :
    ∃ o ∈ snap, sheepMateScan me snap = some o ∧
      o.entity ≠ me.id ∧ o.species = 0 ∧
      1 < mdist me.x me.y o.x o.y ∧ mdist me.x me.y o.x o.y < me.sight_range ∧
      (∀ o2 ∈ snap, o2.entity ≠ me.id → o2.species = 0 →
        1 < mdist me.x me.y o2.x o2.y → mdist me.x me.y o2.x o2.y < me.sight_range →
        mdist me.x me.y o.x o.y ≤ mdist me.x me.y o2.x o2.y) ∧
      ((∀ o2 ∈ snap, ¬(o2.entity ≠ me.id ∧ o2.species = 1 ∧ o2.is_adult = true ∧
          mdist me.x me.y o2.x o2.y < me.sight_range)) →
        selectTarget me snap plants = ⟨some (o.x, o.y), 2, 20⟩) := by
  rcases hcand with ⟨o0, ho0, ho0id, ho0sp, ho0d1, ho0d2⟩
  have hex : ∃ x ∈ snap,
      (!(x.entity == me.id) && (x.species == 0) &&
        decide (1 < mdist me.x me.y x.x x.y) &&
        decide (mdist me.x me.y x.x x.y < me.sight_range)) = true ∧
      mdist me.x me.y x.x x.y < 9999 :=
    ⟨o0, ho0, (sheepMatePred_iff me o0).mpr ⟨ho0id, ho0sp, ho0d1, ho0d2⟩, by omega⟩
  rcases nearestGo_found _ _ snap 9999 hex with ⟨c, hc, hpc, heq1, _heq2, hmin⟩
  have hprops := (sheepMatePred_iff me c).mp hpc
  have hms : sheepMateScan me snap = some c := by
    unfold sheepMateScan
    exact heq1
  refine ⟨c, hc, hms, hprops.1, hprops.2.1, hprops.2.2.1, hprops.2.2.2, ?_, ?_⟩
  · intro o2 h2 h2id h2sp h2d1 h2d2
    exact hmin o2 h2 ((sheepMatePred_iff me o2).mpr ⟨h2id, h2sp, h2d1, h2d2⟩)
  · intro hnowolf
    have h1 : selSheepMate me snap = ⟨some (c.x, c.y), 2, 20⟩ := by
      unfold selSheepMate
      rw [if_pos hsp, if_pos ⟨hfull, hadult, hcd, hov⟩, hms]
    have h2 : selSheepFood me plants ⟨some (c.x, c.y), 2, 20⟩
        = ⟨some (c.x, c.y), 2, 20⟩ := by
      unfold selSheepFood
      rw [if_neg ?_]
      intro hcon
      cases hcon.2.1
    have h3 : selWolfMate me snap ⟨some (c.x, c.y), 2, 20⟩
        = ⟨some (c.x, c.y), 2, 20⟩ := by
      unfold selWolfMate
      rw [if_neg ?_]
      intro hcon
      rw [hsp] at hcon
      exact absurd hcon.1 (by omega)
    have hsel : selectTarget me snap plants
        = selWolfFruit me plants (selPrey
            (preyPredScanGo me 2 snap (none, none)).1
            (selFlee (preyPredScanGo me 2 snap (none, none)).2
              ⟨some (c.x, c.y), 2, 20⟩)) := by
      unfold selectTarget
      rw [h1, h2, h3]
    have hbp1 : (preyPredScanGo me 2 snap (none, none)).1 = none :=
      ppScan_fst_keep me 2 hsp snap (none, none)
    have hbp2 : (preyPredScanGo me 2 snap (none, none)).2 = none :=
      ppScan_snd_none me 2 snap (none, none) rfl hnowolf
    rw [hsel, hbp1, hbp2]
    unfold selFlee selPrey
    rw [if_neg (by intro hne; exact hne rfl)]
    unfold selWolfFruit
    rw [if_neg (by rw [hsp]; omega)]

/-- Concrete state for the C8 witness: the nearer of two adult sheep is
chosen as mate target and becomes the final target. -/
def mateNearC8 : CreatureSnapshot :=
  { entity := 82, x := 2, y := 0, species := 0, is_adult := true }

def mateFarC8 : CreatureSnapshot :=
  { entity := 83, x := 4, y := 0, species := 0, is_adult := true }

theorem claim_C8_witness :
    ∃ o ∈ [mateNearC8, mateFarC8], sheepMateScan sheepC8 [mateNearC8, mateFarC8] = some o ∧
      o.entity ≠ sheepC8.id ∧ o.species = 0 ∧
      1 < mdist sheepC8.x sheepC8.y o.x o.y ∧
      mdist sheepC8.x sheepC8.y o.x o.y < sheepC8.sight_range ∧
      (∀ o2 ∈ [mateNearC8, mateFarC8], o2.entity ≠ sheepC8.id → o2.species = 0 →
        1 < mdist sheepC8.x sheepC8.y o2.x o2.y →
        mdist sheepC8.x sheepC8.y o2.x o2.y < sheepC8.sight_range →
        mdist sheepC8.x sheepC8.y o.x o.y ≤ mdist sheepC8.x sheepC8.y o2.x o2.y) ∧
      ((∀ o2 ∈ [mateNearC8, mateFarC8], ¬(o2.entity ≠ sheepC8.id ∧ o2.species = 1 ∧
          o2.is_adult = true ∧
          mdist sheepC8.x sheepC8.y o2.x o2.y < sheepC8.sight_range)) →
        selectTarget sheepC8 [mateNearC8, mateFarC8] [] = ⟨some (o.x, o.y), 2, 20⟩) :=
  claim_C8 sheepC8 [mateNearC8, mateFarC8] [] (by decide) (by decide) (by decide)
    (by decide) (by decide) (by decide)
    ⟨mateNearC8, by decide, by decide, by decide, by decide, by decide⟩

/-- If no visible sheep (other than the creature itself) is in the snapshot,
the `best_prey` accumulator stays `none`. -/
theorem ppScan_fst_none (me : Creature) (tt : Int) :
    ∀ (os : List CreatureSnapshot)
      (acc : Option (CreatureSnapshot × Int) × Option (CreatureSnapshot × Int)),
      acc.1 = none →
      (∀ o ∈ os, ¬(o.entity ≠ me.id ∧ o.species = 0 ∧
        mdist me.x me.y o.x o.y < me.sight_range)) →
      (preyPredScanGo me tt os acc).1 = none := by
  intro os
  induction os with
  | nil => intro acc hacc _; exact hacc
  | cons o os ih =>
    intro acc hacc hno
    have hno2 : ∀ o2 ∈ os, ¬(o2.entity ≠ me.id ∧ o2.species = 0 ∧
        mdist me.x me.y o2.x o2.y < me.sight_range) :=
      fun o2 h2 => hno o2 (List.mem_cons_of_mem _ h2)
    unfold preyPredScanGo
    by_cases h1 : o.entity == me.id
    · rw [if_pos h1]; exact ih acc hacc hno2
    · rw [if_neg h1]
      by_cases h2 : me.sight_range ≤ mdist me.x me.y o.x o.y
      · rw [if_pos h2]; exact ih acc hacc hno2
      · rw [if_neg h2]
        by_cases h3 : me.species_id = 1 ∧ o.species = 0
        · rw [if_pos h3]
          have hcon : False := by
            refine hno o (List.mem_cons_self _ _) ⟨?_, h3.2, by omega⟩
            intro hid
            exact h1 (by simp only [beq_iff_eq]; exact hid)
          exact hcon.elim
        · rw [if_neg h3]
          by_cases h5 : me.species_id = 0 ∧ o.species = 1
          · rw [if_pos h5]
            by_cases h6 : o.is_adult = true ∧
                closerThan acc.2 (mdist me.x me.y o.x o.y) = true
            · rw [if_pos h6]
              exact ih _ hacc hno2
            · rw [if_neg h6]
              exact ih acc hacc hno2
          · rw [if_neg h5]
            exact ih acc hacc hno2

/-- The plant loop filter, unfolded to propositions. -/
theorem plantPred_iff (me : Creature) (q : Int × Int) :
    (decide (0 < mdist me.x me.y q.1 q.2) &&
      decide (mdist me.x me.y q.1 q.2 < me.sight_range)) = true ↔
    (0 < mdist me.x me.y q.1 q.2 ∧ mdist me.x me.y q.1 q.2 < me.sight_range) := by
  simp only [Bool.and_eq_true, decide_eq_true_eq]

/-- Concrete state refuting C5 as stated: an adult wolf with hunger 75 that
sees both a sheep (at distance 2) and a plant (at distance 2) selects the
sheep as target type 3 with weight 50 — not the plant with weight 80 — since
the fruit-fallback block is skipped whenever a prey target is held. -/
def wolfC5 : Creature :=
  { baseCreature with id := 50, species_id := 1, sight_range := 10, hunger := 75 }

def preySnapC5 : CreatureSnapshot :=
  { entity := 51, x := 2, y := 0, species := 0, is_adult := true }

theorem claim_C5_counterexample :
    selectTarget wolfC5 [preySnapC5] [(0, 2)] =
      ⟨some (preySnapC5.x, preySnapC5.y), 3, 50⟩ ∧
    (preySnapC5.x, preySnapC5.y) ≠ ((0 : Int), (2 : Int)) := by decide

/-- C5 (amended): a desperate predator (hunger ≥ 70) that sees a prey keeps
the prey — not a plant — as its target, with type 3 and the hunt weight
suppressed to 50; the plant becomes the target with weight 80 only when no
prey is visible.  (As stated the claim is false; see the counterexample.) -/
theorem claim_C5 (me : Creature) (snap : List CreatureSnapshot)
    (plants : List (Int × Int)) (hsp : me.species_id = 1)
    (hh : 70 ≤ me.hunger) :
    (me.is_adult = true →
      (∃ o ∈ snap, o.entity ≠ me.id ∧ o.species = 0 ∧
        mdist me.x me.y o.x o.y < me.sight_range) →
      (selectTarget me snap plants).ttype = 3 ∧
      (selectTarget me snap plants).weight = 50 ∧
      ∃ o ∈ snap, o.entity ≠ me.id ∧ o.species = 0 ∧
        mdist me.x me.y o.x o.y < me.sight_range ∧
        (selectTarget me snap plants).target = some (o.x, o.y)) ∧
    (me.sight_range ≤ 9999 →
      (∀ o ∈ snap, ¬(o.entity ≠ me.id ∧ o.species = 0 ∧
        mdist me.x me.y o.x o.y < me.sight_range)) →
      (∃ q ∈ plants, 0 < mdist me.x me.y q.1 q.2 ∧
        mdist me.x me.y q.1 q.2 < me.sight_range) →
      ∃ q ∈ plants, 0 < mdist me.x me.y q.1 q.2 ∧
        mdist me.x me.y q.1 q.2 < me.sight_range ∧
        selectTarget me snap plants = ⟨some q, 1, 80⟩ ∧
        (∀ q2 ∈ plants, 0 < mdist me.x me.y q2.1 q2.2 →
          mdist me.x me.y q2.1 q2.2 < me.sight_range →
          mdist me.x me.y q.1 q.2 ≤ mdist me.x me.y q2.1 q2.2)) := by
  have h1 : selSheepMate me snap = ⟨none, 0, 20⟩ := by
    unfold selSheepMate
    rw [if_neg (by rw [hsp]; omega)]
  have h2 : selSheepFood me plants ⟨none, 0, 20⟩ = ⟨none, 0, 20⟩ := by
    unfold selSheepFood
    rw [if_neg ?_]
    intro hcon
    rw [hsp] at hcon
    exact absurd hcon.1 (by omega)
  have h3 : selWolfMate me snap ⟨none, 0, 20⟩ = ⟨none, 0, 20⟩ := by
    unfold selWolfMate
    rw [if_neg ?_]
    intro hcon
    have hcon2 := hcon.2.2
    linarith
  have hsel : selectTarget me snap plants
      = selWolfFruit me plants (selPrey
          (preyPredScanGo me 0 snap (none, none)).1
          (selFlee (preyPredScanGo me 0 snap (none, none)).2 ⟨none, 0, 20⟩)) := by
    unfold selectTarget
    rw [h1, h2, h3]
  have hsnd : (preyPredScanGo me 0 snap (none, none)).2 = none :=
    ppScan_snd_keep me 0 hsp snap (none, none)
  constructor
  · intro hadult hprey
    have hfst : (preyPredScanGo me 0 snap (none, none)).1.isSome = true :=
      ppScan_fst_found me 0 hsp hadult
        (by intro hcon; exact absurd hcon.1 (by omega)) snap (none, none) hprey
    rcases Option.isSome_iff_exists.mp hfst with ⟨q, hq⟩
    rcases ppScan_fst_elem me 0 snap (none, none) q hq with habs |
        ⟨hqmem, hqid, hqsp, hqd, hqsight⟩
    · exact Option.noConfusion habs
    · have hbump : selWolfFruitBump me ⟨some (q.1.x, q.1.y), 3, 20⟩
          = ⟨some (q.1.x, q.1.y), 3, 50⟩ := by
        unfold selWolfFruitBump
        rw [if_pos ⟨hh, rfl⟩]
      have hfinal : selectTarget me snap plants = ⟨some (q.1.x, q.1.y), 3, 50⟩ := by
        rw [hsel, hq, hsnd]
        unfold selFlee
        unfold selPrey
        rw [if_pos (by decide : ((⟨none, 0, 20⟩ : Sel)).ttype ≠ 2)]
        show selWolfFruit me plants ⟨some (q.1.x, q.1.y), 3, 20⟩ = _
        unfold selWolfFruit
        rw [if_pos hsp, hbump]
        rw [if_neg (by intro hcon; exact hcon.2.2 rfl)]
      rw [hfinal]
      refine ⟨rfl, rfl, q.1, hqmem, hqid, hqsp, by omega, rfl⟩
  · intro hsight hnoprey hplant
    have hfst : (preyPredScanGo me 0 snap (none, none)).1 = none :=
      ppScan_fst_none me 0 snap (none, none) rfl hnoprey
    rcases hplant with ⟨q0, hq0, hq0d1, hq0d2⟩
    have hex : ∃ x ∈ plants,
        (decide (0 < mdist me.x me.y x.1 x.2) &&
          decide (mdist me.x me.y x.1 x.2 < me.sight_range)) = true ∧
        mdist me.x me.y x.1 x.2 < 9999 :=
      ⟨q0, hq0, (plantPred_iff me q0).mpr ⟨hq0d1, hq0d2⟩, by omega⟩
    rcases nearestGo_found _ _ plants 9999 hex with ⟨q, hqmem, hpq, heq1, _heq2, hmin⟩
    have hqprops := (plantPred_iff me q).mp hpq
    have hps : plantScan me plants = some q := by
      unfold plantScan
      exact heq1
    have hbump : selWolfFruitBump me ⟨none, 0, 20⟩ = ⟨none, 0, 20⟩ := by
      unfold selWolfFruitBump
      rw [if_neg (by intro hcon; exact absurd hcon.2 (by decide))]
    have hfinal : selectTarget me snap plants = ⟨some q, 1, 80⟩ := by
      rw [hsel, hfst, hsnd]
      unfold selFlee
      unfold selPrey
      rw [if_pos (by decide : ((⟨none, 0, 20⟩ : Sel)).ttype ≠ 2)]
      show selWolfFruit me plants ⟨none, 0, 20⟩ = _
      unfold selWolfFruit
      rw [if_pos hsp, hbump]
      rw [if_pos ⟨Or.inr (Or.inr hh), by decide, by decide⟩, hps]
      rw [if_pos hh]
    refine ⟨q, hqmem, hqprops.1, hqprops.2, hfinal, ?_⟩
    intro q2 h2 h2d1 h2d2
    exact hmin q2 h2 ((plantPred_iff me q2).mpr ⟨h2d1, h2d2⟩)

theorem claim_C5_witness :
    (selectTarget wolfC5 [preySnapC5] [(0, 2)]).ttype = 3 ∧
    (selectTarget wolfC5 [preySnapC5] [(0, 2)]).weight = 50 ∧
    ∃ o ∈ [preySnapC5], o.entity ≠ wolfC5.id ∧ o.species = 0 ∧
      mdist wolfC5.x wolfC5.y o.x o.y < wolfC5.sight_range ∧
      (selectTarget wolfC5 [preySnapC5] [(0, 2)]).target = some (o.x, o.y) :=
  (claim_C5 wolfC5 [preySnapC5] [(0, 2)] (by decide) (by decide)).1 (by decide)
    ⟨preySnapC5, by decide, by decide, by decide, by decide⟩

/-- Spec-side reading of the water term of the score formula. -/
def waterPenalty (me : Creature) (water : List (Int × Int)) (nx ny : Int) : Int :=
  if me.scared_of_water = true ∧ (nx, ny) ∈ water then -1000 else 0

/-- Spec-side reading of the anti-oscillation term of the score formula. -/
def historyPenalty (me : Creature) (nx ny : Int) : Int :=
  if nx = me.last_x ∧ ny = me.last_y then -30 else 0

/-- Spec-side reading of the directional term: weight × (before − after) for
fruit/mate/prey targets, weight × (after − before) for flee targets. -/
def directionTerm (me : Creature) (sel : Sel) (nx ny : Int) : Int :=
  match sel.target with
  | none => 0
  | some (tx, ty) =>
    if sel.ttype = 1 ∨ sel.ttype = 2 ∨ sel.ttype = 3 then
      sel.weight * (mdist me.x me.y tx ty - mdist nx ny tx ty)
    else if sel.ttype = 4 then
      sel.weight * (mdist nx ny tx ty - mdist me.x me.y tx ty)
    else 0

/-- The candidate score decomposes into the four terms of the formula, with
the random term being the i32 truncating remainder `Int.tmod r 20`. -/
theorem scoreMove_decomp (me : Creature) (water : List (Int × Int)) (sel : Sel)
    (r nx ny : Int) :
    scoreMove me water sel r nx ny
      = Int.tmod r 20 + waterPenalty me water nx ny + historyPenalty me nx ny
        + directionTerm me sel nx ny := by
  obtain ⟨tgt, tt, wt⟩ := sel
  cases tgt with
  | none =>
    simp only [scoreMove, waterPenalty, historyPenalty, directionTerm]
    split_ifs <;> ring
  | some q =>
    obtain ⟨tx, ty⟩ := q
    simp only [scoreMove, waterPenalty, historyPenalty, directionTerm]
    split_ifs <;> ring

/-- The random term lies strictly between −20 and 20 (not in [0, 20)). -/
theorem tmod20_bounds (r : Int) : -20 < Int.tmod r 20 ∧ Int.tmod r 20 < 20 := by
  cases r with
  | ofNat m =>
    rw [show Int.tmod (Int.ofNat m) 20 = ((m % 20 : Nat) : Int) from rfl]
    have hm : m % 20 < 20 := Nat.mod_lt _ (by omega)
    omega
  | negSucc m =>
    rw [show Int.tmod (Int.negSucc m) 20 = -(((m + 1) % 20 : Nat) : Int) from rfl]
    have hm : (m + 1) % 20 < 20 := Nat.mod_lt _ (by omega)
    omega

/-- A single-step move changes the Manhattan distance to a fixed target by
at most one. -/
theorem mdist_move_bound (x y dx dy tx ty : Int) (h : |dx| + |dy| ≤ 1) :
    mdist x y tx ty - mdist (x + dx) (y + dy) tx ty ≤ 1 ∧
    mdist (x + dx) (y + dy) tx ty - mdist x y tx ty ≤ 1 := by
  unfold mdist
  have h1 : |x + dx - tx| ≤ |x - tx| + |dx| := by
    have ha := abs_add (x - tx) dx
    have he : x - tx + dx = x + dx - tx := by ring
    rw [he] at ha
    exact ha
  have h2 : |y + dy - ty| ≤ |y - ty| + |dy| := by
    have ha := abs_add (y - ty) dy
    have he : y - ty + dy = y + dy - ty := by ring
    rw [he] at ha
    exact ha
  have h3 : |x - tx| ≤ |x + dx - tx| + |dx| := by
    have ha := abs_add (x + dx - tx) (-dx)
    have he : x + dx - tx + -dx = x - tx := by ring
    rw [he, abs_neg] at ha
    exact ha
  have h4 : |y - ty| ≤ |y + dy - ty| + |dy| := by
    have ha := abs_add (y + dy - ty) (-dy)
    have he : y + dy - ty + -dy = y - ty := by ring
    rw [he, abs_neg] at ha
    exact ha
  constructor <;> linarith

/-- Lower bound of any unit-move candidate score: the initial best score
−9999 is always beaten. -/
theorem scoreMove_gt (me : Creature) (water : List (Int × Int)) (sel : Sel)
    (r : Int) (m : Int × Int) (hm : |m.1| + |m.2| ≤ 1)
    (hw0 : 0 ≤ sel.weight) (hw80 : sel.weight ≤ 80) :
    -9999 < scoreMove me water sel r (me.x + m.1) (me.y + m.2) := by
  rw [scoreMove_decomp]
  have hb := tmod20_bounds r
  have hwp : -1000 ≤ waterPenalty me water (me.x + m.1) (me.y + m.2) := by
    unfold waterPenalty
    split_ifs <;> omega
  have hhp : -30 ≤ historyPenalty me (me.x + m.1) (me.y + m.2) := by
    unfold historyPenalty
    split_ifs <;> omega
  have hdt : -80 ≤ directionTerm me sel (me.x + m.1) (me.y + m.2) := by
    cases htgt : sel.target with
    | none =>
      unfold directionTerm
      rw [htgt]
      show (-80 : Int) ≤ 0
      omega
    | some q =>
      obtain ⟨tx, ty⟩ := q
      unfold directionTerm
      rw [htgt]
      obtain ⟨hbd1, hbd2⟩ := mdist_move_bound me.x me.y m.1 m.2 tx ty hm
      have hkey : ∀ d : Int, -1 ≤ d → -80 ≤ sel.weight * d := by
        intro d hd
        have hmul := mul_le_mul_of_nonneg_left hd hw0
        have hneg : sel.weight * (-1) = -sel.weight := by ring
        rw [hneg] at hmul
        linarith
      dsimp only
      split_ifs with h1 h2
      · exact hkey _ (by omega)
      · exact hkey _ (by omega)
      · omega
  omega

/-- The generic first-strict-maximum fold underlying the move evaluation. -/
def firstMaxGo : List (α × Int) → α × Int → α × Int
  | [], acc => acc
  | p :: ps, acc => firstMaxGo ps (if acc.2 < p.2 then p else acc)

theorem firstMaxGo_cons (p : α × Int) (ps : List (α × Int)) (acc : α × Int) :
    firstMaxGo (p :: ps) acc = firstMaxGo ps (if acc.2 < p.2 then p else acc) := rfl

/-- The fold result is at least the accumulator and every listed score. -/
theorem firstMaxGo_ge (L : List (α × Int)) :
    ∀ acc : α × Int, acc.2 ≤ (firstMaxGo L acc).2 ∧
      ∀ p ∈ L, p.2 ≤ (firstMaxGo L acc).2 := by
  induction L with
  | nil =>
    intro acc
    exact ⟨le_refl _, by intro p hp; cases hp⟩
  | cons x xs ih =>
    intro acc
    unfold firstMaxGo
    by_cases h : acc.2 < x.2
    · rw [if_pos h]
      rcases ih x with ⟨h1, h2⟩
      refine ⟨le_trans (le_of_lt h) h1, ?_⟩
      intro p hp
      rcases List.mem_cons.mp hp with rfl | hp2
      · exact h1
      · exact h2 p hp2
    · rw [if_neg h]
      rcases ih acc with ⟨h1, h2⟩
      refine ⟨h1, ?_⟩
      intro p hp
      rcases List.mem_cons.mp hp with rfl | hp2
      · exact le_trans (by omega) h1
      · exact h2 p hp2

/-- The fold keeps its accumulator or picks the first entry strictly above
both the accumulator and every earlier entry. -/
theorem firstMaxGo_cases (L : List (α × Int)) :
    ∀ acc : α × Int,
      firstMaxGo L acc = acc ∨
      ∃ (k : Nat) (p : α × Int), L[k]? = some p ∧ firstMaxGo L acc = p ∧
        acc.2 < p.2 ∧
        ∀ j < k, ∀ q : α × Int, L[j]? = some q → q.2 < p.2 := by
  induction L with
  | nil => intro acc; exact Or.inl rfl
  | cons x xs ih =>
    intro acc
    unfold firstMaxGo
    by_cases h : acc.2 < x.2
    · rw [if_pos h]
      rcases ih x with heq | ⟨k, p, hk, heq, hlt, hfirst⟩
      · refine Or.inr ⟨0, x, by simp, heq, h, ?_⟩
        intro j hj q hq
        omega
      · refine Or.inr ⟨k + 1, p, by simpa using hk, heq, lt_trans h hlt, ?_⟩
        intro j hj q hq
        cases j with
        | zero =>
          rw [List.getElem?_cons_zero] at hq
          cases hq
          exact hlt
        | succ j2 =>
          rw [List.getElem?_cons_succ] at hq
          exact hfirst j2 (by omega) q hq
    · rw [if_neg h]
      rcases ih acc with heq | ⟨k, p, hk, heq, hlt, hfirst⟩
      · exact Or.inl heq
      · refine Or.inr ⟨k + 1, p, by simpa using hk, heq, hlt, ?_⟩
        intro j hj q hq
        cases j with
        | zero =>
          rw [List.getElem?_cons_zero] at hq
          cases hq
          omega
        | succ j2 =>
          rw [List.getElem?_cons_succ] at hq
          exact hfirst j2 (by omega) q hq

/-- The in-bounds candidates of the move loop, with their sequentially drawn
scores. -/
def candList (cfg : SimulationConfig) (me : Creature) (water : List (Int × Int))
    (sel : Sel) (rng : Nat → Int) :
    List (Int × Int) → Nat → List ((Int × Int) × Int)
  | [], _ => []
  | m :: ms, k =>
    if inBounds cfg (me.x + m.1) (me.y + m.2) = false then
      candList cfg me water sel rng ms k
    else
      (m, scoreMove me water sel (rng k) (me.x + m.1) (me.y + m.2))
        :: candList cfg me water sel rng ms (k + 1)

/-- Every candidate is one of the scanned moves, is in bounds, and carries a
score of the formula for some draw. -/
theorem candList_mem (cfg : SimulationConfig) (me : Creature)
    (water : List (Int × Int)) (sel : Sel) (rng : Nat → Int) :
    ∀ (ms : List (Int × Int)) (k : Nat) (p : (Int × Int) × Int),
      p ∈ candList cfg me water sel rng ms k →
      p.1 ∈ ms ∧ inBounds cfg (me.x + p.1.1) (me.y + p.1.2) = true ∧
      ∃ k2, p.2 = scoreMove me water sel (rng k2) (me.x + p.1.1) (me.y + p.1.2) := by
  intro ms
  induction ms with
  | nil => intro k p hp; cases hp
  | cons m ms ih =>
    intro k p hp
    unfold candList at hp
    by_cases hb : inBounds cfg (me.x + m.1) (me.y + m.2) = false
    · rw [if_pos hb] at hp
      rcases ih k p hp with ⟨h1, h2, h3⟩
      exact ⟨List.mem_cons_of_mem _ h1, h2, h3⟩
    · rw [if_neg hb] at hp
      rcases List.mem_cons.mp hp with rfl | hp2
      · refine ⟨List.mem_cons_self _ _, ?_, k, rfl⟩
        cases hbv : inBounds cfg (me.x + m.1) (me.y + m.2) with
        | false => exact absurd hbv hb
        | true => rfl
      · rcases ih (k + 1) p hp2 with ⟨h1, h2, h3⟩
        exact ⟨List.mem_cons_of_mem _ h1, h2, h3⟩

/-- The move-evaluation loop equals the first-maximum fold over the
candidate list, consuming one draw per in-bounds candidate. -/
theorem evalGo_eq (cfg : SimulationConfig) (me : Creature)
    (water : List (Int × Int)) (sel : Sel) (rng : Nat → Int) :
    ∀ (ms : List (Int × Int)) (bm : Int × Int) (bs : Int) (k : Nat),
      evalGo cfg me water sel rng ms (bm, bs, k)
        = ((firstMaxGo (candList cfg me water sel rng ms k) (bm, bs)).1,
           (firstMaxGo (candList cfg me water sel rng ms k) (bm, bs)).2,
           k + (candList cfg me water sel rng ms k).length) := by
  intro ms
  induction ms with
  | nil =>
    intro bm bs k
    simp [evalGo, candList, firstMaxGo]
  | cons m ms ih =>
    intro bm bs k
    unfold evalGo candList
    by_cases hb : inBounds cfg (me.x + m.1) (me.y + m.2) = false
    · rw [if_pos hb, if_pos hb]
      exact ih bm bs k
    · rw [if_neg hb, if_neg hb]
      dsimp only
      by_cases hlt : bs < scoreMove me water sel (rng k) (me.x + m.1) (me.y + m.2)
      · rw [if_pos hlt]
        rw [ih m (scoreMove me water sel (rng k) (me.x + m.1) (me.y + m.2)) (k + 1)]
        rw [firstMaxGo_cons]
        rw [if_pos hlt]
        simp only [List.length_cons, Prod.mk.injEq]
        exact ⟨trivial, trivial, by omega⟩
      · rw [if_neg hlt]
        rw [ih bm bs (k + 1)]
        rw [firstMaxGo_cons]
        rw [if_neg hlt]
        simp only [List.length_cons, Prod.mk.injEq]
        exact ⟨trivial, trivial, by omega⟩

/-- C3 (amended): each in-bounds candidate score decomposes as the truncated
random remainder `tmod r 20` — which ranges over (−20, 20), not [0, 20) —
plus the water, anti-oscillation and directional terms; the movement
system's water snapshot is empty in every world (its query requires a
`GridPosition` on the water-tagged entity and no such entity exists), so the
water term never fires in the program; out-of-bounds moves are excluded from
the candidate list; and the applied move is the first candidate in scan
order attaining the maximum score. -/
theorem claim_C3 (cfg : SimulationConfig) (me : Creature)
    (water : List (Int × Int)) (sel : Sel) (rng : Nat → Int) (ridx : Nat) :
    (∀ r nx ny, scoreMove me water sel r nx ny
        = Int.tmod r 20 + waterPenalty me water nx ny + historyPenalty me nx ny
          + directionTerm me sel nx ny) ∧
    (∀ r : Int, -20 < Int.tmod r 20 ∧ Int.tmod r 20 < 20) ∧
    (∀ w : World, moveWaterSnapshot w = []) ∧
    (∀ p ∈ candList cfg me water sel rng moveOffsets ridx,
      p.1 ∈ moveOffsets ∧ inBounds cfg (me.x + p.1.1) (me.y + p.1.2) = true) ∧
    (0 ≤ sel.weight → sel.weight ≤ 80 →
      (candList cfg me water sel rng moveOffsets ridx = [] →
        evalMoves cfg me water sel rng ridx = ((0, 0), -9999, ridx)) ∧
      (candList cfg me water sel rng moveOffsets ridx ≠ [] →
        ∃ (k : Nat) (p : (Int × Int) × Int),
          (candList cfg me water sel rng moveOffsets ridx)[k]? = some p ∧
          (evalMoves cfg me water sel rng ridx).1 = p.1 ∧
          (evalMoves cfg me water sel rng ridx).2.1 = p.2 ∧
          (∀ q ∈ candList cfg me water sel rng moveOffsets ridx, q.2 ≤ p.2) ∧
          (∀ j < k, ∀ q : (Int × Int) × Int,
            (candList cfg me water sel rng moveOffsets ridx)[j]? = some q →
            q.2 < p.2))) := by
  refine ⟨scoreMove_decomp me water sel, tmod20_bounds, fun _ => rfl, ?_, ?_⟩
  · intro p hp
    rcases candList_mem cfg me water sel rng moveOffsets ridx p hp with ⟨h1, h2, _⟩
    exact ⟨h1, h2⟩
  · intro hw0 hw80
    have hbound : ∀ q ∈ candList cfg me water sel rng moveOffsets ridx,
        -9999 < q.2 := by
      intro q hq
      rcases candList_mem cfg me water sel rng moveOffsets ridx q hq with
        ⟨h1, _, k2, hs⟩
      have habs : |q.1.1| + |q.1.2| ≤ 1 := by
        have hall : ∀ mm ∈ moveOffsets, |mm.1| + |mm.2| ≤ 1 := by decide
        exact hall q.1 h1
      rw [hs]
      exact scoreMove_gt me water sel (rng k2) q.1 habs hw0 hw80
    constructor
    · intro hnil
      unfold evalMoves
      rw [evalGo_eq, hnil]
      simp [firstMaxGo]
    · intro hne
      unfold evalMoves
      rw [evalGo_eq]
      rcases firstMaxGo_cases (candList cfg me water sel rng moveOffsets ridx)
          ((0, 0), -9999) with heq | ⟨k, p, hk, heq, _hlt, hfirst⟩
      · rcases List.exists_mem_of_ne_nil _ hne with ⟨q, hq⟩
        have h2 := (firstMaxGo_ge _ ((0, 0), -9999)).2 q hq
        rw [heq] at h2
        have h3 := hbound q hq
        omega
      · refine ⟨k, p, hk, by rw [heq], by rw [heq], ?_, hfirst⟩
        intro q hq
        have h2 := (firstMaxGo_ge _ ((0, 0), -9999)).2 q hq
        rw [heq] at h2
        exact h2

/-- Concrete water-fearing sheep and world for the C3 counterexample: the
tile at (0, 1) is water, yet the movement water snapshot is empty and the
creature walks straight onto the water tile; had the water list actually
contained the tile, it would have moved to (0, −1) instead.  And the random
term of the score is `tmod r 20`: at raw draw −21 it is −1, below the
claimed range [0, 20). -/
def scaredC3 : Creature := { baseCreature with id := 90 }

def worldC3 : World :=
  { creatures := [scaredC3], plants := [], soils := [],
    tiles := [{ x := 0, y := 1, water := true }],
    pop := ⟨⟨0, 0⟩, ⟨0, 0⟩⟩, freshId := 0 }

theorem claim_C3_counterexample :
    scoreMove scaredC3 [] ⟨none, 0, 20⟩ (-21) 0 1 = -1 ∧
    ¬(0 ≤ scoreMove scaredC3 [] ⟨none, 0, 20⟩ (-21) 0 1) ∧
    moveWaterSnapshot worldC3 = [] ∧
    (∃ t ∈ worldC3.tiles, t.water = true ∧ t.x = 0 ∧ t.y = 1) ∧
    scaredC3.scared_of_water = true ∧
    ((move_creatures defaultConfig (mkRat 1 5) (fun _n => 0) [scaredC3] []
        (moveWaterSnapshot worldC3)).map (fun c => (c.x, c.y))) = [(0, 1)] ∧
    ((move_creatures defaultConfig (mkRat 1 5) (fun _n => 0) [scaredC3] []
        [((0 : Int), (1 : Int))]).map (fun c => (c.x, c.y))) = [(0, -1)] := by
  with_unfolding_all decide

theorem claim_C3_witness :
    ∃ (k : Nat) (p : (Int × Int) × Int),
      (candList defaultConfig scaredC3 [] ⟨none, 0, 20⟩ (fun _n => 0)
        moveOffsets 0)[k]? = some p ∧
      (evalMoves defaultConfig scaredC3 [] ⟨none, 0, 20⟩ (fun _n => 0) 0).1 = p.1 ∧
      (evalMoves defaultConfig scaredC3 [] ⟨none, 0, 20⟩ (fun _n => 0) 0).2.1 = p.2 ∧
      (∀ q ∈ candList defaultConfig scaredC3 [] ⟨none, 0, 20⟩ (fun _n => 0)
        moveOffsets 0, q.2 ≤ p.2) ∧
      (∀ j < k, ∀ q : (Int × Int) × Int,
        (candList defaultConfig scaredC3 [] ⟨none, 0, 20⟩ (fun _n => 0)
          moveOffsets 0)[j]? = some q → q.2 < p.2) :=
  ((claim_C3 defaultConfig scaredC3 [] ⟨none, 0, 20⟩ (fun _n => 0) 0).2.2.2.2
    (by decide) (by decide)).2 (by decide)

/-- Concrete states refuting C2 as stated.  (1) A creature whose berry stun
completes during the movement tick moves in that same tick.  (2) A
berry-stunned baby wolf standing on a live plant is an eligible eater — the
eating system never queries `BerryStun`.  (3) A berry-stunned adult wolf is
a parent of a birth event — the reproduction system never queries
`BerryStun` either. -/
def stunMoverC2 : Creature :=
  { baseCreature with id := 95, berry_stun := some (mkRat 1 10) }

def stunEaterC2 : Creature :=
  { baseCreature with
    id := 96
    species_id := 1
    is_adult := false
    hunger := 50
    berry_stun := some 1 }

def plantC2 : Plant := { id := 99, x := 0, y := 0, dead := false }

def stunWolfA2 : Creature :=
  { baseCreature with
    id := 97
    species_id := 1
    sight_range := 10
    berry_stun := some 1 }

def stunWolfB2 : Creature :=
  { baseCreature with id := 98, x := 1, species_id := 1, sight_range := 10 }

theorem claim_C2_counterexample :
    ((moveCreature defaultConfig (mkRat 1 5) [] [] [] (fun _n => 0)
        stunMoverC2 0).1.y = 1 ∧
      stunMoverC2.berry_stun = some (mkRat 1 10) ∧ stunMoverC2.y = 0) ∧
    (findEater defaultConfig [stunEaterC2] plantC2 [stunEaterC2] = some 0 ∧
      stunEaterC2.berry_stun ≠ none) ∧
    (reproEvents defaultConfig [stunWolfA2, stunWolfB2] (fun _n => 0)
        = [⟨stunWolfA2, stunWolfB2, 0⟩] ∧
      stunWolfA2.berry_stun ≠ none) := by
  with_unfolding_all decide

/-- C2 (amended): a Digesting creature never changes position in the
movement step, is never an eligible eater, and is never a parent of a birth
event; a BerryStunned creature does not move while its stun timer does not
complete during the tick — but the eating and reproduction systems do not
test `BerryStun`, and a creature whose stun completes during the movement
tick moves in that same tick (see the counterexample). -/
theorem claim_C2 (cfg : SimulationConfig) :
    (∀ (dt : ℚ) (snap : List CreatureSnapshot) (plants water : List (Int × Int))
      (rng : Nat → Int) (c : Creature) (ridx : Nat), c.digesting = true →
      (moveCreature cfg dt snap plants water rng c ridx).1.x = c.x ∧
      (moveCreature cfg dt snap plants water rng c ridx).1.y = c.y) ∧
    (∀ (dt : ℚ) (snap : List CreatureSnapshot) (plants water : List (Int × Int))
      (rng : Nat → Int) (c : Creature) (ridx : Nat) (r : ℚ),
      c.berry_stun = some r → dt < r →
      (moveCreature cfg dt snap plants water rng c ridx).1.x = c.x ∧
      (moveCreature cfg dt snap plants water rng c ridx).1.y = c.y) ∧
    (∀ (all : List Creature) (p : Plant) (c : Creature), c.digesting = true →
      eligibleEater cfg all p c = false) ∧
    (∀ (cs : List Creature) (rng : Nat → ℚ) (e : BirthEvent),
      e ∈ reproEvents cfg cs rng →
      e.a.digesting = false ∧ e.b.digesting = false) := by
  refine ⟨?_, ?_, ?_, ?_⟩
  · intro dt snap plants water rng c ridx hdig
    have hbody : ∀ c2 : Creature, c2.digesting = true →
        (moveCreatureBody cfg dt snap plants water rng c2 ridx) = (c2, ridx) := by
      intro c2 h2
      unfold moveCreatureBody
      rw [if_pos h2]
    unfold moveCreature
    by_cases hd : c.dead = true
    · rw [if_pos hd]
      exact ⟨rfl, rfl⟩
    · rw [if_neg hd]
      cases hst : c.berry_stun with
      | none =>
        dsimp only
        rw [hbody c hdig]
        exact ⟨rfl, rfl⟩
      | some r =>
        dsimp only
        by_cases hlt : dt < r
        · rw [if_pos hlt]
          exact ⟨rfl, rfl⟩
        · rw [if_neg hlt]
          rw [hbody { c with berry_stun := none } hdig]
          exact ⟨rfl, rfl⟩
  · intro dt snap plants water rng c ridx r hst hlt
    unfold moveCreature
    by_cases hd : c.dead = true
    · rw [if_pos hd]
      exact ⟨rfl, rfl⟩
    · rw [if_neg hd, hst]
      dsimp only
      rw [if_pos hlt]
      exact ⟨rfl, rfl⟩
  · intro all p c hdig
    unfold eligibleEater
    rw [hdig]
    simp
  · intro cs rng e he
    have hspec := reproEventsGo_spec cfg rng _ 0 e he
    have helig := (eligiblePair_iff e.a e.b).mp hspec.2.1
    exact ⟨helig.2.2.2.2.1, helig.2.2.2.2.2.2.1⟩

/-- Concrete digesting wolf for the C2 witness: it does not move. -/
def digestC2 : Creature :=
  { baseCreature with id := 94, species_id := 1, digesting := true, hunger := -3 }

theorem claim_C2_witness :
    (moveCreature defaultConfig (mkRat 1 5) [] [] [] (fun _n => 0)
        digestC2 0).1.x = digestC2.x ∧
    (moveCreature defaultConfig (mkRat 1 5) [] [] [] (fun _n => 0)
        digestC2 0).1.y = digestC2.y :=
  (claim_C2 defaultConfig).1 (mkRat 1 5) [] [] [] (fun _n => 0) digestC2 0
    (by decide)

/-! ## Hunger bookkeeping for C7 -/

/-- Movement never touches a creature's hunger or dead flag. -/
theorem moveCreatureBody_hunger_dead (cfg : SimulationConfig) (dt : ℚ)
    (snap : List CreatureSnapshot) (plants water : List (Int × Int))
    (rng : Nat → Int) (c : Creature) (ridx : Nat) :
    (moveCreatureBody cfg dt snap plants water rng c ridx).1.hunger = c.hunger ∧
    (moveCreatureBody cfg dt snap plants water rng c ridx).1.dead = c.dead := by
  unfold moveCreatureBody
  dsimp only
  repeat' split
  all_goals exact ⟨rfl, rfl⟩

theorem moveCreature_hunger_dead (cfg : SimulationConfig) (dt : ℚ)
    (snap : List CreatureSnapshot) (plants water : List (Int × Int))
    (rng : Nat → Int) (c : Creature) (ridx : Nat) :
    (moveCreature cfg dt snap plants water rng c ridx).1.hunger = c.hunger ∧
    (moveCreature cfg dt snap plants water rng c ridx).1.dead = c.dead := by
  unfold moveCreature
  split
  · exact ⟨rfl, rfl⟩
  · split
    · split
      · exact ⟨rfl, rfl⟩
      · exact moveCreatureBody_hunger_dead cfg dt snap plants water rng _ ridx
    · exact moveCreatureBody_hunger_dead cfg dt snap plants water rng _ ridx

theorem agePhase_fields (cfg : SimulationConfig) (dt : ℚ) (c : Creature) :
    (agePhase cfg dt c).species_id = c.species_id ∧
    (agePhase cfg dt c).hunger = c.hunger ∧
    (agePhase cfg dt c).dead = c.dead := by
  unfold agePhase
  split
  all_goals exact ⟨rfl, rfl, rfl⟩

theorem digestPhase_fields (dt : ℚ) (c : Creature) :
    (digestPhase dt c).species_id = c.species_id ∧
    (digestPhase dt c).hunger = c.hunger ∧
    (digestPhase dt c).is_adult = c.is_adult ∧
    (digestPhase dt c).dead = c.dead := by
  unfold digestPhase
  repeat' split
  all_goals exact ⟨rfl, rfl, rfl, rfl⟩

theorem cooldownPhase_fields (dt : ℚ) (c : Creature) :
    (cooldownPhase dt c).species_id = c.species_id ∧
    (cooldownPhase dt c).hunger = c.hunger ∧
    (cooldownPhase dt c).is_adult = c.is_adult ∧
    (cooldownPhase dt c).dead = c.dead := by
  unfold cooldownPhase
  repeat' split
  all_goals exact ⟨rfl, rfl, rfl, rfl⟩

theorem starvePhase_spec (c : Creature) :
    (starvePhase c).hunger = c.hunger ∧
    (starvePhase c).species_id = c.species_id ∧
    (starvePhase c).is_adult = c.is_adult ∧
    ((starvePhase c).dead = false → c.hunger < 100 ∧ c.dead = false) := by
  unfold starvePhase
  split
  · exact ⟨rfl, rfl, rfl, fun hd => absurd hd (by simp)⟩
  · rename_i hlt
    exact ⟨rfl, rfl, rfl, fun hd => ⟨lt_of_not_le hlt, hd⟩⟩

/-- The hunger burn of `creature_state_update` on a live creature: hunger
moves by exactly the species/age burn times `dt` (the age is the one after
this tick's adulthood update), and a survivor is strictly below the
starvation threshold. -/
theorem updateCreature_spec (cfg : SimulationConfig) (dt : ℚ) (c : Creature)
    (h : c.dead = false) :
    (updateCreature cfg dt c).species_id = c.species_id ∧
    (updateCreature cfg dt c).hunger
      = c.hunger + burnOf cfg c.species_id (updateCreature cfg dt c).is_adult * dt ∧
    ((updateCreature cfg dt c).dead = false → (updateCreature cfg dt c).hunger < 100) := by
  have hu : updateCreature cfg dt c
      = starvePhase (cooldownPhase dt (digestPhase dt (burnPhase cfg dt (agePhase cfg dt c)))) := by
    unfold updateCreature
    rw [if_neg (by simp [h])]
  rcases agePhase_fields cfg dt c with ⟨ha1, ha2, _⟩
  rcases digestPhase_fields dt (burnPhase cfg dt (agePhase cfg dt c)) with ⟨hd1, hd2, hd3, _⟩
  rcases cooldownPhase_fields dt (digestPhase dt (burnPhase cfg dt (agePhase cfg dt c)))
    with ⟨hc1, hc2, hc3, _⟩
  rcases starvePhase_spec (cooldownPhase dt (digestPhase dt (burnPhase cfg dt (agePhase cfg dt c))))
    with ⟨hs1, hs2, hs3, hs4⟩
  have hb1 : (burnPhase cfg dt (agePhase cfg dt c)).species_id = c.species_id := ha1
  have hb2 : (burnPhase cfg dt (agePhase cfg dt c)).hunger
      = c.hunger + burnOf cfg c.species_id (agePhase cfg dt c).is_adult * dt := by
    show (agePhase cfg dt c).hunger
        + burnOf cfg (agePhase cfg dt c).species_id (agePhase cfg dt c).is_adult * dt
      = c.hunger + burnOf cfg c.species_id (agePhase cfg dt c).is_adult * dt
    rw [ha1, ha2]
  have hb3 : (burnPhase cfg dt (agePhase cfg dt c)).is_adult = (agePhase cfg dt c).is_adult := rfl
  refine ⟨?_, ?_, ?_⟩
  · rw [hu, hs2, hc1, hd1, hb1]
  · rw [hu, hs1, hc2, hd2, hb2, hs3, hc3, hd3, hb3]
  · intro hdead
    rw [hu] at hdead ⊢
    rw [hs1, hc2, hd2]
    have := (hs4 hdead).1
    rw [hc2, hd2] at this
    exact this

/-- The per-creature hunger invariant carried through the tick: dead, or
hunger in [-5, 100). -/
def hungerInv (c : Creature) : Prop :=
  c.dead = true ∨ (-5 ≤ c.hunger ∧ c.hunger < 100)

theorem burnOf_nonneg (cfg : SimulationConfig)
    (hb : 0 ≤ cfg.sheep_hunger_burn_adult ∧ 0 ≤ cfg.sheep_hunger_burn_baby ∧
      0 ≤ cfg.wolf_hunger_burn_adult ∧ 0 ≤ cfg.wolf_hunger_burn_baby)
    (sid : Nat) (b : Bool) : 0 ≤ burnOf cfg sid b := by
  unfold burnOf
  match sid, b with
  | 0, true => exact hb.1
  | 0, false => exact hb.2.1
  | 1, true => exact hb.2.2.1
  | 1, false => exact hb.2.2.2
  | (n + 2), true => exact show (0 : ℚ) ≤ 3 by norm_num
  | (n + 2), false => exact show (0 : ℚ) ≤ 3 by norm_num

theorem applyEat_length (cfg : SimulationConfig) (cs : List Creature) (i : Nat) :
    (applyEat cfg cs i).length = cs.length := by
  unfold applyEat
  cases h : cs[i]? with
  | none => rfl
  | some c => exact List.length_set cs i _

theorem applyEat_getElem_ne (cfg : SimulationConfig) (cs : List Creature)
    {i j : Nat} (hne : j ≠ i) : (applyEat cfg cs j)[i]? = cs[i]? := by
  unfold applyEat
  cases h : cs[j]? with
  | none => rfl
  | some c => exact List.getElem?_set_ne hne

theorem applyEat_inv (cfg : SimulationConfig) (cs : List Creature) (j : Nat)
    (hall : ∀ c ∈ cs, hungerInv c) : ∀ c2 ∈ applyEat cfg cs j, hungerInv c2 := by
  intro c2 hc2
  unfold applyEat at hc2
  cases h : cs[j]? with
  | none => rw [h] at hc2; exact hall c2 hc2
  | some c =>
    rw [h] at hc2
    rcases List.mem_or_eq_of_mem_set hc2 with hmem | heq
    · exact hall c2 hmem
    · right
      rw [heq]
      exact ⟨by norm_num, by norm_num⟩

theorem eatGo_length (cfg : SimulationConfig) (all : List Creature) :
    ∀ (ps : List Plant) (cs : List Creature),
      ((creature_eating_go cfg all ps cs).2.1).length = cs.length := by
  intro ps
  induction ps with
  | nil => intro cs; rfl
  | cons p ps ih =>
    intro cs
    unfold creature_eating_go
    split
    · exact ih cs
    · cases hf : findEater cfg all p cs with
      | none => exact ih cs
      | some i =>
        dsimp only
        rw [ih (applyEat cfg cs i), applyEat_length]

theorem eatGo_cons (cfg : SimulationConfig) (all : List Creature) (p : Plant)
    (ps : List Plant) (cs : List Creature) :
    creature_eating_go cfg all (p :: ps) cs =
      if p.dead then
        (p :: (creature_eating_go cfg all ps cs).1,
         (creature_eating_go cfg all ps cs).2.1,
         (creature_eating_go cfg all ps cs).2.2.1,
         (creature_eating_go cfg all ps cs).2.2.2)
      else
        match findEater cfg all p cs with
        | none =>
          (p :: (creature_eating_go cfg all ps cs).1,
           (creature_eating_go cfg all ps cs).2.1,
           (creature_eating_go cfg all ps cs).2.2.1,
           (creature_eating_go cfg all ps cs).2.2.2)
        | some i =>
          ({ p with dead := true } :: (creature_eating_go cfg all ps (applyEat cfg cs i)).1,
           (creature_eating_go cfg all ps (applyEat cfg cs i)).2.1,
           { x := p.x, y := p.y, remaining := cfg.soil_exhaust_seconds_after_eat }
             :: (creature_eating_go cfg all ps (applyEat cfg cs i)).2.2.1,
           i :: (creature_eating_go cfg all ps (applyEat cfg cs i)).2.2.2) := rfl

theorem eatGo_untouched (cfg : SimulationConfig) (all : List Creature) :
    ∀ (ps : List Plant) (cs : List Creature) (i : Nat),
      i ∉ (creature_eating_go cfg all ps cs).2.2.2 →
      ((creature_eating_go cfg all ps cs).2.1)[i]? = cs[i]? := by
  intro ps
  induction ps with
  | nil => intro cs i _; rfl
  | cons p ps ih =>
    intro cs i hni
    rw [eatGo_cons] at hni ⊢
    by_cases hp : p.dead = true
    · rw [if_pos hp] at hni ⊢
      exact ih cs i hni
    · rw [if_neg hp] at hni ⊢
      cases hf : findEater cfg all p cs with
      | none =>
        rw [hf] at hni
        dsimp only at hni ⊢
        exact ih cs i hni
      | some j =>
        rw [hf] at hni
        dsimp only at hni ⊢
        have hne : i ≠ j := fun he => hni (by rw [he]; exact List.mem_cons_self _ _)
        have hni2 : i ∉ (creature_eating_go cfg all ps (applyEat cfg cs j)).2.2.2 :=
          fun hm => hni (List.mem_cons_of_mem _ hm)
        rw [ih (applyEat cfg cs j) i hni2]
        exact applyEat_getElem_ne cfg cs (fun he => hne he.symm)

theorem eatGo_inv (cfg : SimulationConfig) (all : List Creature) :
    ∀ (ps : List Plant) (cs : List Creature), (∀ c ∈ cs, hungerInv c) →
      ∀ c2 ∈ (creature_eating_go cfg all ps cs).2.1, hungerInv c2 := by
  intro ps
  induction ps with
  | nil => intro cs hall c2 hc2; exact hall c2 hc2
  | cons p ps ih =>
    intro cs hall c2 hc2
    unfold creature_eating_go at hc2
    split at hc2
    · exact ih cs hall c2 hc2
    · cases hf : findEater cfg all p cs with
      | none =>
        rw [hf] at hc2
        exact ih cs hall c2 hc2
      | some j =>
        rw [hf] at hc2
        exact ih (applyEat cfg cs j) (applyEat_inv cfg cs j hall) c2 hc2

theorem hunt_getElem (cs : List Creature) (i : Nat) (c2 : Creature)
    (h : cs[i]? = some c2)
    (hk : killedBy c2 (cs.filter (fun c => !c.dead)) = none) :
    ∃ c3, (predator_hunting_system cs).1[i]? = some c3 ∧ c3.hunger = c2.hunger := by
  unfold predator_hunting_system
  dsimp only
  rw [List.getElem?_map, h, Option.map_some']
  refine ⟨_, rfl, ?_⟩
  dsimp only
  by_cases hd : c2.dead = true
  · rw [if_pos hd]
  · rw [if_neg hd,
      if_neg (show ¬((killedBy c2 (cs.filter (fun c => !c.dead))).isSome = true) by
        rw [hk]; simp)]
    split
    · rfl
    · rfl

theorem hunt_inv (cs : List Creature) (hall : ∀ c ∈ cs, hungerInv c) :
    ∀ c2 ∈ (predator_hunting_system cs).1, hungerInv c2 := by
  intro c2 hc2
  unfold predator_hunting_system at hc2
  dsimp only at hc2
  rcases List.mem_map.mp hc2 with ⟨c, hc, heq⟩
  subst heq
  by_cases hd : c.dead = true
  · rw [if_pos hd]
    exact hall c hc
  · rw [if_neg hd]
    by_cases hkb : (killedBy c (cs.filter (fun c => !c.dead))).isSome = true
    · rw [if_pos hkb]
      right
      constructor
      · norm_num
      · norm_num
    · rw [if_neg hkb]
      split
      · left
        rfl
      · exact hall c hc

theorem repro_getElem (cfg : SimulationConfig) (cs : List Creature)
    (rng : Nat → ℚ) (fid : Nat) (pop : PopulationStats) (i : Nat) (c : Creature)
    (h : cs[i]? = some c) :
    ∃ c4, (creature_reproduction cfg cs rng fid pop).1[i]? = some c4 ∧
      c4.hunger = c.hunger ∧ c4.dead = c.dead := by
  have hlen : i < cs.length := (List.getElem?_eq_some.mp h).1
  unfold creature_reproduction
  dsimp only
  rw [List.getElem?_append, if_pos (by rw [List.length_map]; exact hlen),
    List.getElem?_map, h, Option.map_some']
  refine ⟨_, rfl, ?_, ?_⟩
  · dsimp only
    split
    · rfl
    · rfl
  · dsimp only
    split
    · rfl
    · rfl

theorem repro_inv (cfg : SimulationConfig) (cs : List Creature) (rng : Nat → ℚ)
    (fid : Nat) (pop : PopulationStats) (hall : ∀ c ∈ cs, hungerInv c) :
    ∀ c2 ∈ (creature_reproduction cfg cs rng fid pop).1, hungerInv c2 := by
  intro c2 hc2
  unfold creature_reproduction at hc2
  dsimp only at hc2
  rcases List.mem_append.mp hc2 with hl | hr
  · rcases List.mem_map.mp hl with ⟨c, hc, heq⟩
    subst heq
    have hinv := hall c hc
    split
    · rcases hinv with hd | hb
      · exact Or.inl hd
      · exact Or.inr hb
    · exact hinv
  · rcases List.mem_map.mp hr with ⟨q, _, heq⟩
    subst heq
    right
    constructor
    · norm_num [mkBaby]
    · norm_num [mkBaby]

theorem moveGo_getElem (cfg : SimulationConfig) (dt : ℚ)
    (snap : List CreatureSnapshot) (plants water : List (Int × Int))
    (rng : Nat → Int) :
    ∀ (cs : List Creature) (ridx i : Nat),
      ((moveGo cfg dt snap plants water rng cs ridx)[i]?).map
          (fun c => (c.hunger, c.dead))
        = (cs[i]?).map (fun c => (c.hunger, c.dead)) := by
  intro cs
  induction cs with
  | nil => intro ridx i; rfl
  | cons c cs ih =>
    intro ridx i
    cases i with
    | zero =>
      have hm := moveCreature_hunger_dead cfg dt snap plants water rng c ridx
      simp only [moveGo, List.getElem?_cons_zero, Option.map_some']
      rw [hm.1, hm.2]
    | succ n =>
      simp only [moveGo, List.getElem?_cons_succ]
      exact ih _ n

theorem moveGo_inv (cfg : SimulationConfig) (dt : ℚ)
    (snap : List CreatureSnapshot) (plants water : List (Int × Int))
    (rng : Nat → Int) :
    ∀ (cs : List Creature) (ridx : Nat), (∀ c ∈ cs, hungerInv c) →
      ∀ c2 ∈ moveGo cfg dt snap plants water rng cs ridx, hungerInv c2 := by
  intro cs
  induction cs with
  | nil => intro ridx _ c2 hc2; cases hc2
  | cons c cs ih =>
    intro ridx hall c2 hc2
    rcases List.mem_cons.mp hc2 with heq | hmem
    · subst heq
      have hm := moveCreature_hunger_dead cfg dt snap plants water rng c ridx
      have := hall c (List.mem_cons_self c cs)
      unfold hungerInv at this ⊢
      rw [hm.1, hm.2]
      exact this
    · exact ih _ (fun x hx => hall x (List.mem_cons_of_mem c hx)) c2 hmem

theorem drowning_getElem (cs : List Creature) (tiles : List Tile) (i : Nat) :
    ((handle_drowning cs tiles)[i]?).map Creature.hunger
      = (cs[i]?).map Creature.hunger := by
  unfold handle_drowning
  rw [List.getElem?_map]
  cases h : cs[i]? with
  | none => rfl
  | some c =>
    rw [Option.map_some', Option.map_some']
    apply congrArg some
    dsimp only
    split
    · rfl
    · split
      · rfl
      · rfl

theorem drowning_inv (cs : List Creature) (tiles : List Tile)
    (hall : ∀ c ∈ cs, hungerInv c) :
    ∀ c2 ∈ handle_drowning cs tiles, hungerInv c2 := by
  intro c2 hc2
  unfold handle_drowning at hc2
  rcases List.mem_map.mp hc2 with ⟨c, hc, heq⟩
  subst heq
  have hinv := hall c hc
  split
  · exact hinv
  · split
    · left
      rfl
    · exact hinv

theorem updateCreature_inv (cfg : SimulationConfig) (dt : ℚ) (c : Creature)
    (hdt : 0 ≤ dt)
    (hb : 0 ≤ cfg.sheep_hunger_burn_adult ∧ 0 ≤ cfg.sheep_hunger_burn_baby ∧
      0 ≤ cfg.wolf_hunger_burn_adult ∧ 0 ≤ cfg.wolf_hunger_burn_baby)
    (hc : c.dead = false → -5 ≤ c.hunger) :
    hungerInv (updateCreature cfg dt c) := by
  by_cases hd : c.dead = true
  · left
    unfold updateCreature
    rw [if_pos hd]
    exact hd
  · have hdf : c.dead = false := by
      cases hcd : c.dead
      · rfl
      · exact absurd hcd hd
    rcases updateCreature_spec cfg dt c hdf with ⟨_, hh, hlt⟩
    by_cases hdd : (updateCreature cfg dt c).dead = true
    · exact Or.inl hdd
    · have hdf2 : (updateCreature cfg dt c).dead = false := by
        cases hcd : (updateCreature cfg dt c).dead
        · rfl
        · exact absurd hcd hdd
      right
      refine ⟨?_, hlt hdf2⟩
      rw [hh]
      have : 0 ≤ burnOf cfg c.species_id (updateCreature cfg dt c).is_adult * dt :=
        mul_nonneg (burnOf_nonneg cfg hb _ _) hdt
      have h5 := hc hdf
      linarith

/-- C7: for every creature alive immediately after a tick, hunger lies in
[-5, 100]; and a creature untouched by this tick's eating and predation
events has its hunger increased by exactly the species/age burn rate times
`dt` — in particular hunger is monotonically non-decreasing between
eating/predation events. -/
theorem claim_C7 (cfg : SimulationConfig) (dt : ℚ) (r : TickRng) (w : World)
    (hdt : 0 ≤ dt)
    (hb : 0 ≤ cfg.sheep_hunger_burn_adult ∧ 0 ≤ cfg.sheep_hunger_burn_baby ∧
      0 ≤ cfg.wolf_hunger_burn_adult ∧ 0 ≤ cfg.wolf_hunger_burn_baby)
    (hin : ∀ c ∈ w.creatures, c.dead = false → -5 ≤ c.hunger) :
    (∀ c ∈ (tick cfg dt r w).creatures, -5 ≤ c.hunger ∧ c.hunger ≤ 100) ∧
    (∀ (i : Nat) (c : Creature), w.creatures[i]? = some c → c.dead = false →
      i ∉ (creature_eating cfg w.plants
        (creature_state_update cfg dt w.creatures)).2.2.2 →
      (∀ c2, (creature_eating cfg w.plants
          (creature_state_update cfg dt w.creatures)).2.1[i]? = some c2 →
        killedBy c2 ((creature_eating cfg w.plants
          (creature_state_update cfg dt w.creatures)).2.1.filter
            (fun c => !c.dead)) = none) →
      ∃ c7, (tickCore cfg dt r w).creatures[i]? = some c7 ∧
        c7.hunger = c.hunger
          + burnOf cfg c.species_id ((updateCreature cfg dt c).is_adult) * dt ∧
        c.hunger ≤ c7.hunger) := by
  have hcore : (tickCore cfg dt r w).creatures
      = handle_drowning
          (move_creatures cfg dt r.moveDraws
            (creature_reproduction cfg
              (predator_hunting_system
                (creature_eating cfg w.plants
                  (creature_state_update cfg dt w.creatures)).2.1).1
              r.reproDraws w.freshId w.pop).1
            ((creature_eating cfg w.plants
              (creature_state_update cfg dt w.creatures)).1.map
                (fun p => (p.x, p.y)))
            (moveWaterSnapshot w))
          w.tiles := rfl
  have htick : (tick cfg dt r w).creatures
      = ((tickCore cfg dt r w).creatures).filter (fun c => !c.dead) := rfl
  have hinv1 : ∀ c2 ∈ creature_state_update cfg dt w.creatures, hungerInv c2 := by
    intro c2 hc2
    rcases List.mem_map.mp hc2 with ⟨c, hc, heq⟩
    subst heq
    exact updateCreature_inv cfg dt c hdt hb (hin c hc)
  have hinv2 : ∀ c2 ∈ (creature_eating cfg w.plants
      (creature_state_update cfg dt w.creatures)).2.1, hungerInv c2 := by
    unfold creature_eating
    exact eatGo_inv cfg _ w.plants _ hinv1
  have hinv3 := hunt_inv _ hinv2
  have hinv4 := repro_inv cfg _ r.reproDraws w.freshId w.pop hinv3
  have hinv5 : ∀ c2 ∈ move_creatures cfg dt r.moveDraws
      (creature_reproduction cfg
        (predator_hunting_system
          (creature_eating cfg w.plants
            (creature_state_update cfg dt w.creatures)).2.1).1
        r.reproDraws w.freshId w.pop).1
      ((creature_eating cfg w.plants
        (creature_state_update cfg dt w.creatures)).1.map (fun p => (p.x, p.y)))
      (moveWaterSnapshot w), hungerInv c2 := by
    unfold move_creatures
    exact moveGo_inv cfg dt _ _ _ r.moveDraws _ 0 hinv4
  have hinv7 := drowning_inv _ w.tiles hinv5
  constructor
  · intro c hc
    rw [htick] at hc
    rcases List.mem_filter.mp hc with ⟨hmem, hlv⟩
    rw [hcore] at hmem
    rcases hinv7 c hmem with hd | hbnd
    · rw [hd] at hlv
      exact absurd hlv (by simp)
    · exact ⟨hbnd.1, le_of_lt hbnd.2⟩
  · intro i c hci hlive hnoteat hnokill
    have h1 : (creature_state_update cfg dt w.creatures)[i]?
        = some (updateCreature cfg dt c) := by
      unfold creature_state_update
      rw [List.getElem?_map, hci, Option.map_some']
    rcases updateCreature_spec cfg dt c hlive with ⟨_, hh, _⟩
    have h2 : (creature_eating cfg w.plants
        (creature_state_update cfg dt w.creatures)).2.1[i]?
        = some (updateCreature cfg dt c) := by
      unfold creature_eating at hnoteat ⊢
      rw [eatGo_untouched cfg _ w.plants _ i hnoteat]
      exact h1
    have hk := hnokill _ h2
    rcases hunt_getElem _ i _ h2 hk with ⟨c3, h3, h3h⟩
    rcases repro_getElem cfg _ r.reproDraws w.freshId w.pop i c3 h3
      with ⟨c4, h4, h4h, _⟩
    have h5 : ((move_creatures cfg dt r.moveDraws
        (creature_reproduction cfg
          (predator_hunting_system
            (creature_eating cfg w.plants
              (creature_state_update cfg dt w.creatures)).2.1).1
          r.reproDraws w.freshId w.pop).1
        ((creature_eating cfg w.plants
          (creature_state_update cfg dt w.creatures)).1.map
            (fun p => (p.x, p.y)))
        (moveWaterSnapshot w))[i]?).map (fun c => (c.hunger, c.dead))
        = some (c4.hunger, c4.dead) := by
      unfold move_creatures
      rw [moveGo_getElem, h4, Option.map_some']
    obtain ⟨c5, h5a, h5b⟩ : ∃ c5, (move_creatures cfg dt r.moveDraws
        (creature_reproduction cfg
          (predator_hunting_system
            (creature_eating cfg w.plants
              (creature_state_update cfg dt w.creatures)).2.1).1
          r.reproDraws w.freshId w.pop).1
        ((creature_eating cfg w.plants
          (creature_state_update cfg dt w.creatures)).1.map
            (fun p => (p.x, p.y)))
        (moveWaterSnapshot w))[i]? = some c5 ∧ c5.hunger = c4.hunger := by
      cases hcc : (move_creatures cfg dt r.moveDraws
          (creature_reproduction cfg
            (predator_hunting_system
              (creature_eating cfg w.plants
                (creature_state_update cfg dt w.creatures)).2.1).1
            r.reproDraws w.freshId w.pop).1
          ((creature_eating cfg w.plants
            (creature_state_update cfg dt w.creatures)).1.map
              (fun p => (p.x, p.y)))
          (moveWaterSnapshot w))[i]? with
      | none => rw [hcc] at h5; simp at h5
      | some c5 =>
        rw [hcc, Option.map_some'] at h5
        simp only [Option.some.injEq, Prod.mk.injEq] at h5
        exact ⟨c5, rfl, h5.1⟩
    have h7 := drowning_getElem (move_creatures cfg dt r.moveDraws
        (creature_reproduction cfg
          (predator_hunting_system
            (creature_eating cfg w.plants
              (creature_state_update cfg dt w.creatures)).2.1).1
          r.reproDraws w.freshId w.pop).1
        ((creature_eating cfg w.plants
          (creature_state_update cfg dt w.creatures)).1.map
            (fun p => (p.x, p.y)))
        (moveWaterSnapshot w)) w.tiles i
    rw [h5a, Option.map_some'] at h7
    obtain ⟨c7, h7a, h7b⟩ : ∃ c7, (handle_drowning (move_creatures cfg dt r.moveDraws
        (creature_reproduction cfg
          (predator_hunting_system
            (creature_eating cfg w.plants
              (creature_state_update cfg dt w.creatures)).2.1).1
          r.reproDraws w.freshId w.pop).1
        ((creature_eating cfg w.plants
          (creature_state_update cfg dt w.creatures)).1.map
            (fun p => (p.x, p.y)))
        (moveWaterSnapshot w)) w.tiles)[i]? = some c7 ∧ c7.hunger = c5.hunger := by
      cases hcc : (handle_drowning (move_creatures cfg dt r.moveDraws
          (creature_reproduction cfg
            (predator_hunting_system
              (creature_eating cfg w.plants
                (creature_state_update cfg dt w.creatures)).2.1).1
            r.reproDraws w.freshId w.pop).1
          ((creature_eating cfg w.plants
            (creature_state_update cfg dt w.creatures)).1.map
              (fun p => (p.x, p.y)))
          (moveWaterSnapshot w)) w.tiles)[i]? with
      | none => rw [hcc] at h7; simp at h7
      | some c7 =>
        rw [hcc, Option.map_some'] at h7
        simp only [Option.some.injEq] at h7
        exact ⟨c7, rfl, h7⟩
    refine ⟨c7, ?_, ?_, ?_⟩
    · rw [hcore]
      exact h7a
    · rw [h7b, h5b, h4h, h3h, hh]
    · rw [h7b, h5b, h4h, h3h, hh]
      have : 0 ≤ burnOf cfg c.species_id (updateCreature cfg dt c).is_adult * dt :=
        mul_nonneg (burnOf_nonneg cfg hb _ _) hdt
      linarith

/-- Concrete one-sheep world for the C7 witness. -/
def sheepC7 : Creature := { baseCreature with id := 77 }

def worldC7 : World :=
  { creatures := [sheepC7]
    plants := []
    soils := []
    tiles := []
    pop := ⟨⟨0, 0⟩, ⟨0, 0⟩⟩
    freshId := 100 }

def rngC7 : TickRng :=
  { moveDraws := fun _n => 0
    reproDraws := fun _n => 0
    growthChance := 1
    growthX := 0
    growthY := 0 }

theorem claim_C7_witness :
    (∀ c ∈ (tick defaultConfig (mkRat 1 10) rngC7 worldC7).creatures,
        -5 ≤ c.hunger ∧ c.hunger ≤ 100) ∧
    (∀ (i : Nat) (c : Creature), worldC7.creatures[i]? = some c →
      c.dead = false →
      i ∉ (creature_eating defaultConfig worldC7.plants
        (creature_state_update defaultConfig (mkRat 1 10) worldC7.creatures)).2.2.2 →
      (∀ c2, (creature_eating defaultConfig worldC7.plants
          (creature_state_update defaultConfig (mkRat 1 10)
            worldC7.creatures)).2.1[i]? = some c2 →
        killedBy c2 ((creature_eating defaultConfig worldC7.plants
          (creature_state_update defaultConfig (mkRat 1 10)
            worldC7.creatures)).2.1.filter (fun c => !c.dead)) = none) →
      ∃ c7, (tickCore defaultConfig (mkRat 1 10) rngC7
          worldC7).creatures[i]? = some c7 ∧
        c7.hunger = c.hunger
          + burnOf defaultConfig c.species_id
              ((updateCreature defaultConfig (mkRat 1 10) c).is_adult)
            * (mkRat 1 10) ∧
        c.hunger ≤ c7.hunger) :=
  claim_C7 defaultConfig (mkRat 1 10) rngC7 worldC7
    (by with_unfolding_all decide)
    (by with_unfolding_all decide)
    (by with_unfolding_all decide)
